import Mathlib

/-!
Shallow embedding of the VirtIO-MMIO device model in src/src/virtio.cc
(block device and 9P filesystem device for a RISC-V simulator), together
with theorems settling the spec claims.

Modelling conventions:
* Machine integers are Nat with explicit reductions mod 2^k at the points
  where the C code performs fixed-width arithmetic (u16 ring indices, u32
  register values, u64 guest physical addresses).
* Guest memory is a total function Nat -> Nat; reads mask with % 256 so a
  memory cell always observes as one byte.
* The C while-loops that walk descriptor chains are embedded as fuel
  recursions.  Descriptor indices are 16-bit reads, so an acyclic walk
  visits at most 65536 descriptors; with fuel 65537 fuel exhaustion occurs
  exactly on chains where the C code would loop forever (cyclic chains),
  and is mapped to the error result.
* The dispatch loop of queue_notify runs, in C, while
  last_avail_idx != avail_idx (with avail_idx read once, before the loop).
  Both device recv callbacks in this repository leave last_avail_idx
  untouched, so the loop executes exactly
  (avail_idx - last_avail_idx) mod 2^16 iterations unless a negative
  recv return breaks it; the embedding uses that count as the structural
  fuel of the loop.
* The page-chunked byte copies virtio_memcpy_from_ram / _to_ram reduce to
  plain byte-by-byte copies (the page splitting only changes chunk sizes
  of the same byte loop), and are embedded as such.
-/

namespace Virtio

/-! ## Bytes, little-endian codecs, and guest memory -/

def W64 : Nat := 18446744073709551616

def w64 (x : Nat) : Nat := x % W64

def u16 (x : Nat) : Nat := x % 65536

def u32 (x : Nat) : Nat := x % 4294967296

/-- Guest physical memory: a total byte-addressed store. -/
def Mem : Type := Nat → Nat

def readByte (m : Mem) (a : Nat) : Nat := m a % 256

def writeByte (m : Mem) (a v : Nat) : Mem :=
  fun x => if x = a then v % 256 else m x

def read16 (m : Mem) (a : Nat) : Nat :=
  readByte m a + 256 * readByte m (a + 1)

def read32 (m : Mem) (a : Nat) : Nat :=
  readByte m a + 256 * readByte m (a + 1) + 65536 * readByte m (a + 2) +
    16777216 * readByte m (a + 3)

def read64 (m : Mem) (a : Nat) : Nat :=
  read32 m a + 4294967296 * read32 m (a + 4)

def write16 (m : Mem) (a v : Nat) : Mem :=
  writeByte (writeByte m a v) (a + 1) (v / 256)

def write32 (m : Mem) (a v : Nat) : Mem :=
  writeByte (writeByte (writeByte (writeByte m a v) (a + 1) (v / 256))
    (a + 2) (v / 65536)) (a + 3) (v / 16777216)

/-- Store a list of bytes at consecutive addresses (the byte loop of
virtio_memcpy_to_ram). -/
def storeList (m : Mem) (a : Nat) : List Nat → Mem
  | [] => m
  | b :: bs => storeList (writeByte m a b) (a + 1) bs

/-- Read count consecutive bytes (the byte loop of virtio_memcpy_from_ram). -/
def readList (m : Mem) (a : Nat) : Nat → List Nat
  | 0 => []
  | n + 1 => readByte m a :: readList m (a + 1) n

/-- Little-endian byte lists, as written by put_le16/put_le32/put_le64. -/
def le16b (v : Nat) : List Nat := [v % 256, v / 256 % 256]

def le32b (v : Nat) : List Nat :=
  [v % 256, v / 256 % 256, v / 65536 % 256, v / 16777216 % 256]

def le64b (v : Nat) : List Nat :=
  [v % 256, v / 256 % 256, v / 65536 % 256, v / 16777216 % 256,
   v / 4294967296 % 256, v / 1099511627776 % 256,
   v / 281474976710656 % 256, v / 72057594037927936 % 256]

/-- Little-endian reads out of a byte list (get_le16 / get_le32 / get_le64
applied to a host buffer). -/
def read16l (l : List Nat) (i : Nat) : Nat :=
  l.getD i 0 % 256 + 256 * (l.getD (i + 1) 0 % 256)

def read32l (l : List Nat) (i : Nat) : Nat :=
  l.getD i 0 % 256 + 256 * (l.getD (i + 1) 0 % 256) +
    65536 * (l.getD (i + 2) 0 % 256) + 16777216 * (l.getD (i + 3) 0 % 256)

def read64l (l : List Nat) (i : Nat) : Nat :=
  read32l l i + 4294967296 * read32l l (i + 4)

/-! ## Transport state: queues, registers, machine -/

def MAX_QUEUE : Nat := 8

def MAX_QUEUE_NUM : Nat := 16

def MAX_CONFIG_SPACE_SIZE : Nat := 256

/-- Per-queue state (struct QueueState). -/
structure QueueState where
  ready : Nat
  num : Nat
  last_avail_idx : Nat
  desc_addr : Nat
  avail_addr : Nat
  used_addr : Nat
  manual_recv : Bool
deriving Repr, DecidableEq

/-- The register part of struct VIRTIODevice.  Queues are a total function;
the C array has 8 entries and every access is guarded by an index < 8. -/
structure DeviceRegs where
  int_status : Nat
  status : Nat
  device_features_sel : Nat
  queue_sel : Nat
  queue : Nat → QueueState
  device_id : Nat
  device_features : Nat
  config_space_size : Nat
  config_space : Nat → Nat

/-- A device machine: MMIO registers, guest memory, the interrupt line
level (the IRQSpike sink), and the device-specific extension state. -/
structure Machine (E : Type) where
  dev : DeviceRegs
  mem : Mem
  irq_level : Nat
  ext : E

def set_irq {E : Type} (m : Machine E) (level : Nat) : Machine E :=
  { m with irq_level := level }

def setMem {E : Type} (m : Machine E) (mem : Mem) : Machine E :=
  { m with mem := mem }

/-- The u32 decrement num - 1 used for ring masking (wraps at 0 like the C
uint32_t arithmetic). -/
def u32pred (n : Nat) : Nat := (n + 4294967295) % 4294967296

/-! ## Descriptors and chain walking -/

def VRING_DESC_F_NEXT : Nat := 1

def VRING_DESC_F_WRITE : Nat := 2

structure VIRTIODesc where
  addr : Nat
  len : Nat
  flags : Nat
  next : Nat
deriving Repr, DecidableEq

/-- get_desc: read the 16-byte descriptor desc_idx of the table at
desc_addr from guest memory (little-endian fields). -/
def get_desc (mem : Mem) (desc_addr desc_idx : Nat) : VIRTIODesc :=
  let base := w64 (desc_addr + desc_idx * 16)
  { addr := read64 mem base
    len := read32 mem (base + 8)
    flags := read16 mem (base + 12)
    next := read16 mem (base + 14) }

/-- Walk fuel: descriptor indices are 16-bit, so an acyclic walk visits at
most 65536 descriptors; exhaustion corresponds to a cyclic chain on which
the C loop diverges. -/
def descFuel : Nat := 65537

/-- First loop of memcpy_to_from_queue in the to_queue direction: skip
descriptors until one with the WRITE flag is found. -/
def find_first_write (mem : Mem) (desc_addr : Nat) :
    Nat → Nat → VIRTIODesc → Option (Nat × VIRTIODesc)
  | 0, _, _ => none
  | fuel + 1, desc_idx, desc =>
    if Nat.land desc.flags 2 = 2 then some (desc_idx, desc)
    else if Nat.land desc.flags 1 = 0 then none
    else find_first_write mem desc_addr fuel desc.next
      (get_desc mem desc_addr desc.next)

/-- Second loop of memcpy_to_from_queue: advance to the descriptor holding
the requested offset, checking that the WRITE flag matches fwrite
(0 or 2) on every descriptor touched. -/
def seek_offset (mem : Mem) (desc_addr fwrite : Nat) :
    Nat → Nat → VIRTIODesc → Nat → Option (Nat × VIRTIODesc × Nat)
  | 0, _, _, _ => none
  | fuel + 1, desc_idx, desc, offset =>
    if Nat.land desc.flags 2 ≠ fwrite then none
    else if offset < desc.len then some (desc_idx, desc, offset)
    else if Nat.land desc.flags 1 = 0 then none
    else seek_offset mem desc_addr fwrite fuel desc.next
      (get_desc mem desc_addr desc.next) (offset - desc.len)

/-- Copy loop of memcpy_to_from_queue, direction queue -> host buffer.
Returns the bytes copied so far and a success flag; on failure the list is
the partial copy (the C code leaves the tail of the buffer unwritten). -/
def copy_from (mem : Mem) (desc_addr : Nat) :
    Nat → VIRTIODesc → Nat → Nat → Nat → List Nat → List Nat × Bool
  | 0, _, _, _, _, acc => (acc, false)
  | fuel + 1, desc, _desc_idx, offset, count, acc =>
    let l := min count (desc.len - offset)
    let acc := acc ++ readList mem (w64 (desc.addr + offset)) l
    if count - l = 0 then (acc, true)
    else if Nat.land desc.flags 1 = 0 then (acc, false)
    else
      let desc2 := get_desc mem desc_addr desc.next
      if Nat.land desc2.flags 2 ≠ 0 then (acc, false)
      else copy_from mem desc_addr fuel desc2 desc.next 0 (count - l) acc

/-- Copy loop of memcpy_to_from_queue, direction host buffer -> queue.
Returns the updated memory and a success flag; on failure the memory holds
the partial writes already performed, like the C code. -/
def copy_to (mem : Mem) (desc_addr : Nat) :
    Nat → VIRTIODesc → Nat → List Nat → Mem × Bool
  | 0, _, _, _ => (mem, false)
  | fuel + 1, desc, offset, buf =>
    let l := min buf.length (desc.len - offset)
    let mem2 := storeList mem (w64 (desc.addr + offset)) (buf.take l)
    if buf.length - l = 0 then (mem2, true)
    else if Nat.land desc.flags 1 = 0 then (mem2, false)
    else
      let desc2 := get_desc mem2 desc_addr desc.next
      if Nat.land desc2.flags 2 ≠ 2 then (mem2, false)
      else copy_to mem2 desc_addr fuel desc2 0 (buf.drop l)

/-- memcpy_from_queue: read count bytes starting at byte offset of the
read-only prefix of the chain rooted at desc_idx. -/
def memcpy_from_queue (mem : Mem) (desc_addr desc_idx offset count : Nat) :
    List Nat × Bool :=
  if count = 0 then ([], true)
  else
    let desc := get_desc mem desc_addr desc_idx
    match seek_offset mem desc_addr 0 descFuel desc_idx desc offset with
    | none => ([], false)
    | some (i, d, off) => copy_from mem desc_addr descFuel d i off count []

/-- memcpy_to_queue: write buf starting at byte offset of the writable
suffix of the chain rooted at desc_idx. -/
def memcpy_to_queue (mem : Mem) (desc_addr desc_idx offset : Nat)
    (buf : List Nat) : Mem × Bool :=
  if buf.length = 0 then (mem, true)
  else
    let desc := get_desc mem desc_addr desc_idx
    match find_first_write mem desc_addr descFuel desc_idx desc with
    | none => (mem, false)
    | some (i, d) =>
      match seek_offset mem desc_addr 2 descFuel i d offset with
      | none => (mem, false)
      | some (_, d2, off) => copy_to mem desc_addr descFuel d2 off buf

/-- First loop of get_desc_rw_size: sum of the leading read-only
descriptor lengths; stops at the first WRITE descriptor or at chain end. -/
def rw_size_read (mem : Mem) (desc_addr : Nat) :
    Nat → Nat → VIRTIODesc → Nat → Option (Nat × Option (Nat × VIRTIODesc))
  | 0, _, _, _ => none
  | fuel + 1, desc_idx, desc, acc =>
    if Nat.land desc.flags 2 = 2 then some (acc, some (desc_idx, desc))
    else if Nat.land desc.flags 1 = 0 then some (acc + desc.len, none)
    else rw_size_read mem desc_addr fuel desc.next
      (get_desc mem desc_addr desc.next) (acc + desc.len)

/-- Second loop of get_desc_rw_size: sum of the writable descriptor
lengths; fails if a non-writable descriptor follows a writable one. -/
def rw_size_write (mem : Mem) (desc_addr : Nat) :
    Nat → VIRTIODesc → Nat → Option Nat
  | 0, _, _ => none
  | fuel + 1, desc, acc =>
    if Nat.land desc.flags 2 = 0 then none
    else if Nat.land desc.flags 1 = 0 then some (acc + desc.len)
    else rw_size_write mem desc_addr fuel
      (get_desc mem desc_addr desc.next) (acc + desc.len)

/-- get_desc_rw_size: measure the chain into (read_size, write_size);
none models the -1 protocol-error return. -/
def get_desc_rw_size (mem : Mem) (desc_addr desc_idx : Nat) :
    Option (Nat × Nat) :=
  let desc := get_desc mem desc_addr desc_idx
  match rw_size_read mem desc_addr descFuel desc_idx desc 0 with
  | none => none
  | some (rs, none) => some (rs, 0)
  | some (rs, some (_, d)) =>
    match rw_size_write mem desc_addr descFuel d 0 with
    | none => none
    | some ws => some (rs, ws)

/-! ## Used ring, interrupt, notify dispatch -/

/-- virtio_consume_desc: post {desc_idx, desc_len} at the current used-ring
slot, bump the used index (u16), raise int_status bit 0 and the IRQ line. -/
def virtio_consume_desc {E : Type} (m : Machine E)
    (queue_idx desc_idx desc_len : Nat) : Machine E :=
  let qs := m.dev.queue queue_idx
  let idxAddr := w64 (qs.used_addr + 2)
  let index := read16 m.mem idxAddr
  let mem1 := write16 m.mem idxAddr (index + 1)
  let entryAddr := w64 (qs.used_addr + 4 + (Nat.land index (u32pred qs.num)) * 8)
  let mem2 := write32 mem1 entryAddr desc_idx
  let mem3 := write32 mem2 (entryAddr + 4) desc_len
  { m with
    mem := mem3
    dev := { m.dev with int_status := Nat.lor m.dev.int_status 1 }
    irq_level := 1 }

/-- A device recv callback (VIRTIODeviceRecvFunc): machine, queue_idx,
desc_idx, read_size, write_size to new machine and int return. -/
def RecvFn (E : Type) : Type :=
  Machine E → Nat → Nat → Nat → Nat → Machine E × Int

def bump_last_avail {E : Type} (m : Machine E) (queue_idx : Nat) : Machine E :=
  let q := m.dev.queue queue_idx
  let q2 := { q with last_avail_idx := u16 (q.last_avail_idx + 1) }
  { m with dev := { m.dev with queue := fun i =>
      if i = queue_idx then q2 else m.dev.queue i } }

/-- The while-loop body of queue_notify.  The fuel is the number of
pending available-ring entries (see the header comment); each iteration
reads the descriptor index for the current last_avail_idx, measures the
chain, invokes recv when measuring succeeded, and advances last_avail_idx
unless recv returned a negative value (which stops the loop). -/
def notify_loop {E : Type} (recv : RecvFn E) (queue_idx : Nat) :
    Nat → Machine E → Machine E
  | 0, m => m
  | fuel + 1, m =>
    let qs := m.dev.queue queue_idx
    let desc_idx := read16 m.mem
      (w64 (qs.avail_addr + 4 + (Nat.land qs.last_avail_idx (u32pred qs.num)) * 2))
    match get_desc_rw_size m.mem qs.desc_addr desc_idx with
    | some (read_size, write_size) =>
      let p := recv m queue_idx desc_idx read_size write_size
      if p.2 < 0 then p.1
      else notify_loop recv queue_idx fuel (bump_last_avail p.1 queue_idx)
    | none => notify_loop recv queue_idx fuel (bump_last_avail m queue_idx)

/-- queue_notify: skip everything when manual_recv is set, otherwise read
the available index once and drain the ring up to it. -/
def queue_notify {E : Type} (recv : RecvFn E) (m : Machine E)
    (queue_idx : Nat) : Machine E :=
  let qs := m.dev.queue queue_idx
  if qs.manual_recv then m
  else
    let avail_idx := read16 m.mem (w64 (qs.avail_addr + 2))
    notify_loop recv queue_idx
      (u16 (avail_idx + 65536 - u16 qs.last_avail_idx)) m

/-! ## MMIO register file -/

/-- virtio_reset: reinitialise the 8 queues and clear the core registers
(manual_recv and config space are not touched by the C function). -/
def virtio_reset (d : DeviceRegs) : DeviceRegs :=
  { d with
    status := 0
    queue_sel := 0
    device_features_sel := 0
    int_status := 0
    queue := fun i =>
      if i < MAX_QUEUE then
        { ready := 0
          num := MAX_QUEUE_NUM
          desc_addr := 0
          avail_addr := 0
          used_addr := 0
          last_avail_idx := 0
          manual_recv := (d.queue i).manual_recv }
      else d.queue i }

/-- virtio_config_write: byte/halfword/word store into config space with
the bound checks of the source.  Neither device of this repository
registers a config_write callback, so none is modelled. -/
def virtio_config_write (d : DeviceRegs) (offset val size_log2 : Nat) :
    DeviceRegs :=
  if size_log2 = 0 then
    if offset < d.config_space_size then
      { d with config_space := fun i =>
          if i = offset then val % 256 else d.config_space i }
    else d
  else if size_log2 = 1 then
    if offset < d.config_space_size - 1 then
      { d with config_space := fun i =>
          if i = offset then val % 256
          else if i = offset + 1 then val / 256 % 256
          else d.config_space i }
    else d
  else if size_log2 = 2 then
    if offset < d.config_space_size - 3 then
      { d with config_space := fun i =>
          if i = offset then val % 256
          else if i = offset + 1 then val / 256 % 256
          else if i = offset + 2 then val / 65536 % 256
          else if i = offset + 3 then val / 16777216 % 256
          else d.config_space i }
    else d
  else d

def updateQueueSel (d : DeviceRegs) (f : QueueState → QueueState) : DeviceRegs :=
  { d with queue := fun i =>
      if i = d.queue_sel then f (d.queue d.queue_sel) else d.queue i }

/-- The DEVICE_FEATURES_SEL write arm. -/
def wrDevFeaturesSel {E : Type} (m : Machine E) (val : Nat) : Machine E :=
  { m with dev := { m.dev with device_features_sel := val } }

/-- The QUEUE_SEL write arm: only indices below MAX_QUEUE are accepted. -/
def wrQueueSel {E : Type} (m : Machine E) (val : Nat) : Machine E :=
  if val < MAX_QUEUE then { m with dev := { m.dev with queue_sel := val } }
  else m

/-- The QUEUE_NUM write arm: only a non-zero power of two (the test
val & (val-1) == 0 and val > 0 of the source) takes effect. -/
def wrQueueNum {E : Type} (m : Machine E) (val : Nat) : Machine E :=
  if Nat.land val (u32pred val) = 0 ∧ 0 < val then
    { m with dev := updateQueueSel m.dev (fun q => { q with num := val }) }
  else m

/-- set_low32 on a 64-bit guest address. -/
def setLow32 (a val : Nat) : Nat := a / 4294967296 * 4294967296 + val

/-- set_high32 on a 64-bit guest address. -/
def setHigh32 (a val : Nat) : Nat := a % 4294967296 + val * 4294967296

def wrDescLow {E : Type} (m : Machine E) (val : Nat) : Machine E :=
  let d := updateQueueSel m.dev (fun q => { q with desc_addr := setLow32 q.desc_addr val })
  { m with dev := d }

def wrDescHigh {E : Type} (m : Machine E) (val : Nat) : Machine E :=
  let d := updateQueueSel m.dev (fun q => { q with desc_addr := setHigh32 q.desc_addr val })
  { m with dev := d }

def wrAvailLow {E : Type} (m : Machine E) (val : Nat) : Machine E :=
  let d := updateQueueSel m.dev (fun q => { q with avail_addr := setLow32 q.avail_addr val })
  { m with dev := d }

def wrAvailHigh {E : Type} (m : Machine E) (val : Nat) : Machine E :=
  let d := updateQueueSel m.dev (fun q => { q with avail_addr := setHigh32 q.avail_addr val })
  { m with dev := d }

def wrUsedLow {E : Type} (m : Machine E) (val : Nat) : Machine E :=
  let d := updateQueueSel m.dev (fun q => { q with used_addr := setLow32 q.used_addr val })
  { m with dev := d }

def wrUsedHigh {E : Type} (m : Machine E) (val : Nat) : Machine E :=
  let d := updateQueueSel m.dev (fun q => { q with used_addr := setHigh32 q.used_addr val })
  { m with dev := d }

/-- The STATUS write arm: a zero write drops the interrupt line and fully
resets the device. -/
def wrStatus {E : Type} (m : Machine E) (val : Nat) : Machine E :=
  if val = 0 then
    set_irq { m with dev := virtio_reset { m.dev with status := val } } 0
  else { m with dev := { m.dev with status := val } }

def wrQueueReady {E : Type} (m : Machine E) (val : Nat) : Machine E :=
  { m with dev := updateQueueSel m.dev (fun q => { q with ready := val % 2 }) }

/-- The QUEUE_NOTIFY write arm: dispatch on the named queue. -/
def wrQueueNotify {E : Type} (recv : RecvFn E) (m : Machine E) (val : Nat) :
    Machine E :=
  if val < MAX_QUEUE then queue_notify recv m val else m

/-- The INTERRUPT_ACK write arm: clear the written bits and drop the line
when no bit remains. -/
def wrInterruptAck {E : Type} (m : Machine E) (val : Nat) : Machine E :=
  let ist := Nat.land m.dev.int_status (4294967295 - val)
  let m2 := { m with dev := { m.dev with int_status := ist } }
  if ist = 0 then set_irq m2 0 else m2

/-- virtio_mmio_write: the 4-byte control-register write decoder, the
config-space path, and the QUEUE_NOTIFY dispatch.  val is reduced mod 2^32
like the uint32_t parameter. -/
def virtio_mmio_write {E : Type} (recv : RecvFn E) (m : Machine E)
    (offset val0 size_log2 : Nat) : Machine E :=
  let val := u32 val0
  if 256 ≤ offset then
    { m with dev := virtio_config_write m.dev (offset - 256) val size_log2 }
  else if size_log2 = 2 then
    if offset = 20 then wrDevFeaturesSel m val
    else if offset = 48 then wrQueueSel m val
    else if offset = 56 then wrQueueNum m val
    else if offset = 128 then wrDescLow m val
    else if offset = 132 then wrDescHigh m val
    else if offset = 144 then wrAvailLow m val
    else if offset = 148 then wrAvailHigh m val
    else if offset = 160 then wrUsedLow m val
    else if offset = 164 then wrUsedHigh m val
    else if offset = 112 then wrStatus m val
    else if offset = 68 then wrQueueReady m val
    else if offset = 80 then wrQueueNotify recv m val
    else if offset = 100 then wrInterruptAck m val
    else m
  else m

/-! ## Block backing store (BlockDeviceFile, bf_read_async, bf_write_async) -/

def SECTOR_SIZE : Nat := 512

inductive BlockDeviceModeEnum where
  | BF_MODE_RO
  | BF_MODE_RW
  | BF_MODE_SNAPSHOT
deriving Repr, DecidableEq

export BlockDeviceModeEnum (BF_MODE_RO BF_MODE_RW BF_MODE_SNAPSHOT)

/-- The BlockDeviceFile backing store.  The host FILE is modelled as a
total byte function base (fread behind end-of-file is idealised to read
those bytes) plus a presence flag f; sector_table is the lazily allocated
snapshot overlay (an allocated entry holds the 512 sector bytes). -/
structure BlockDeviceFile where
  f : Bool
  nb_sectors : Nat
  mode : BlockDeviceModeEnum
  sector_table : Nat → Option (List Nat)
  base : Nat → Nat

/-- fread of n bytes at byte offset off of the backing file. -/
def fileRead (base : Nat → Nat) (off : Nat) : Nat → List Nat
  | 0 => []
  | n + 1 => base off % 256 :: fileRead base (off + 1) n

/-- fwrite of buf at byte offset off of the backing file. -/
def fileWrite (base : Nat → Nat) (off : Nat) (buf : List Nat) : Nat → Nat :=
  fun a => if off ≤ a ∧ a < off + buf.length then buf.getD (a - off) 0 % 256
           else base a

/-- One sector of the base file. -/
def baseSector (bf : BlockDeviceFile) (s : Nat) : List Nat :=
  fileRead bf.base (s * SECTOR_SIZE) SECTOR_SIZE

/-- The per-sector loop of bf_read_async in snapshot mode: overlay entry
if present, else fall through to the base file. -/
def snapshotRead (bf : BlockDeviceFile) : Nat → Nat → List Nat
  | _, 0 => []
  | s, n + 1 =>
    (match bf.sector_table s with
     | some sec => sec
     | none => baseSector bf s) ++ snapshotRead bf (s + 1) n

/-- The per-sector loop of bf_write_async in snapshot mode: each sector
entry is (allocated on demand and) overwritten with the next 512 bytes of
the buffer. -/
def snapshotWrite (tbl : Nat → Option (List Nat)) :
    Nat → List Nat → Nat → Nat → Option (List Nat)
  | _, _, 0 => tbl
  | s, buf, n + 1 =>
    snapshotWrite (fun x => if x = s then some (buf.take SECTOR_SIZE) else tbl x)
      (s + 1) (buf.drop SECTOR_SIZE) n

/-- bf_read_async: returns the status int (0 sync success, -1 error) and
the bytes read into the caller buffer. -/
def bf_read_async (bf : BlockDeviceFile) (sector_num n : Nat) :
    Int × List Nat :=
  if bf.f = false then (-1, [])
  else if bf.mode = BF_MODE_SNAPSHOT then (0, snapshotRead bf sector_num n)
  else (0, fileRead bf.base (sector_num * SECTOR_SIZE) (n * SECTOR_SIZE))

/-- bf_write_async: returns the updated backing store and the status int. -/
def bf_write_async (bf : BlockDeviceFile) (sector_num : Nat) (buf : List Nat)
    (n : Nat) : BlockDeviceFile × Int :=
  match bf.mode with
  | BF_MODE_RO => (bf, -1)
  | BF_MODE_RW =>
    let base2 := fileWrite bf.base (sector_num * SECTOR_SIZE) (buf.take (n * SECTOR_SIZE))
    ({ bf with base := base2 }, 0)
  | BF_MODE_SNAPSHOT =>
    if bf.nb_sectors < sector_num + n then (bf, -1)
    else ({ bf with sector_table := snapshotWrite bf.sector_table sector_num buf n }, 0)

/-! ## Block device logic -/

def VIRTIO_BLK_T_IN : Nat := 0

def VIRTIO_BLK_T_OUT : Nat := 1

def VIRTIO_BLK_S_OK : Nat := 0

def VIRTIO_BLK_S_IOERR : Nat := 1

/-- Pad or truncate a byte list to exactly n entries; models a malloc
buffer of size n whose unwritten bytes are idealised to 0. -/
def padTo (n : Nat) (l : List Nat) : List Nat :=
  (l ++ List.replicate (n - l.length) 0).take n

/-- The in-flight BlockRequest record. -/
structure BlockRequest where
  type : Nat
  buf : List Nat
  write_size : Nat
  queue_idx : Nat
  desc_idx : Nat

/-- Device-specific state of VIRTIOBlockDevice. -/
structure BlockExt where
  bs : BlockDeviceFile
  req_in_progress : Bool
  req : BlockRequest

abbrev BlockMachine := Machine BlockExt

/-- virtio_block_req_end: finish the in-flight request, writing the status
byte (and for IN the data) into the writable part of the chain and posting
one used-ring entry. -/
def virtio_block_req_end (m : BlockMachine) (ret : Int) : BlockMachine :=
  let queue_idx := m.ext.req.queue_idx
  let desc_idx := m.ext.req.desc_idx
  let desc_addr := (m.dev.queue queue_idx).desc_addr
  if m.ext.req.type = VIRTIO_BLK_T_IN then
    let write_size := m.ext.req.write_size
    let status := if ret < 0 then VIRTIO_BLK_S_IOERR else VIRTIO_BLK_S_OK
    let buf := padTo write_size ((m.ext.req.buf.take (write_size - 1)) ++ [status])
    let r := memcpy_to_queue m.mem desc_addr desc_idx 0 buf
    virtio_consume_desc (setMem m r.1) queue_idx desc_idx write_size
  else if m.ext.req.type = VIRTIO_BLK_T_OUT then
    let status := if ret < 0 then VIRTIO_BLK_S_IOERR else VIRTIO_BLK_S_OK
    let r := memcpy_to_queue m.mem desc_addr desc_idx 0 [status]
    virtio_consume_desc (setMem m r.1) queue_idx desc_idx 1
  else m

/-- virtio_block_recv_request.  Both bf_*_async calls complete
synchronously (they return at most 0), so the asynchronous branch that
would set req_in_progress is dead code here, kept for shape. -/
def virtio_block_recv_request : RecvFn BlockExt :=
  fun m queue_idx desc_idx read_size write_size =>
  if m.ext.req_in_progress then (m, -1)
  else
    let desc_addr := (m.dev.queue queue_idx).desc_addr
    match memcpy_from_queue m.mem desc_addr desc_idx 0 16 with
    | (_, false) => (m, 0)
    | (hdr, true) =>
      let htype := read32l hdr 0
      let sector_num := read64l hdr 8
      let m1 := { m with ext := { m.ext with req :=
        { m.ext.req with type := htype, queue_idx := queue_idx,
                         desc_idx := desc_idx } } }
      if htype = VIRTIO_BLK_T_IN then
        let p := bf_read_async m1.ext.bs sector_num
          ((write_size - 1) / SECTOR_SIZE)
        let m2 := { m1 with ext := { m1.ext with req :=
          { m1.ext.req with buf := padTo write_size p.2,
                            write_size := write_size } } }
        if p.1 > 0 then
          ({ m2 with ext := { m2.ext with req_in_progress := true } }, 0)
        else (virtio_block_req_end m2 p.1, 0)
      else if htype = VIRTIO_BLK_T_OUT then
        let len := read_size - 16
        let q := memcpy_from_queue m1.mem desc_addr desc_idx 16 len
        let buf := padTo len q.1
        let p := bf_write_async m1.ext.bs sector_num buf (len / SECTOR_SIZE)
        let m2 := { m1 with ext := { m1.ext with bs := p.1 } }
        if p.2 > 0 then
          ({ m2 with ext := { m2.ext with req_in_progress := true } }, 0)
        else (virtio_block_req_end m2 p.2, 0)
      else (m1, 0)

/-- virtio_init: zeroed registers, device constants, then virtio_reset. -/
def init_regs (device_id device_features config_space_size : Nat)
    (cfg : Nat → Nat) : DeviceRegs :=
  virtio_reset
    { int_status := 0
      status := 0
      device_features_sel := 0
      queue_sel := 0
      queue := fun _ =>
        { ready := 0, num := 0, last_avail_idx := 0, desc_addr := 0,
          avail_addr := 0, used_addr := 0, manual_recv := false }
      device_id := device_id
      device_features := device_features
      config_space_size := config_space_size
      config_space := cfg }

/-- Block config space: 8 bytes of little-endian sector count. -/
def blockConfig (nb_sectors : Nat) : Nat → Nat :=
  fun i => (le64b nb_sectors).getD i 0

/-- virtio_block_init: device id 2, 8 config bytes, no features. -/
def virtio_block_init (bf : BlockDeviceFile) (mem : Mem) : BlockMachine :=
  { dev := init_regs 2 0 8 (blockConfig bf.nb_sectors)
    mem := mem
    irq_level := 0
    ext := { bs := bf, req_in_progress := false
             req := { type := 0, buf := [], write_size := 0,
                      queue_idx := 0, desc_idx := 0 } } }

/-- The MMIO write decoder instantiated with the block device recv. -/
def blk_mmio_write (m : BlockMachine) (offset val size_log2 : Nat) :
    BlockMachine :=
  virtio_mmio_write virtio_block_recv_request m offset val size_log2

/-! ## Concrete scenes used by counterexamples and end-to-end theorems -/

def zeroMem : Mem := fun _ => 0

/-- Byte image of one 16-byte descriptor. -/
def descBytes (addr len flags next : Nat) : List Nat :=
  le64b addr ++ le32b len ++ le16b flags ++ le16b next

/-- Apply a sequence of 4-byte MMIO register writes to a block machine. -/
def mmioSeq (m : BlockMachine) (ws : List (Nat × Nat)) : BlockMachine :=
  ws.foldl (fun acc p => blk_mmio_write acc p.1 p.2 2) m

/-- A read-write backing file with zeroed contents. -/
def bfRW : BlockDeviceFile :=
  { f := true, nb_sectors := 8, mode := BF_MODE_RW,
    sector_table := fun _ => none, base := fun _ => 0 }

/-- A read-only backing file with zeroed contents. -/
def bfRO : BlockDeviceFile :=
  { f := true, nb_sectors := 8, mode := BF_MODE_RO,
    sector_table := fun _ => none, base := fun _ => 0 }


/-- A snapshot-mode backing file with zeroed contents. -/
def bfSnap : BlockDeviceFile :=
  { f := true, nb_sectors := 8, mode := BF_MODE_SNAPSHOT,
    sector_table := fun _ => none, base := fun _ => 0 }

/-- The MMIO write sequence that configures queue 0 with the standard ring
layout of the scenes: descriptor table at 4096, available ring at 8192,
used ring at 12288. -/
def cfgWrites : List (Nat × Nat) :=
  [(48, 0), (56, 16), (128, 4096), (132, 0), (144, 8192), (148, 0),
   (160, 12288), (164, 0), (68, 1)]

/-- Scene A: one available chain whose single read-only descriptor carries
a FLUSH (type 4) block request header. -/
def sceneFlushMem : Mem :=
  let m1 := storeList zeroMem 4096 (descBytes 16384 16 0 0)
  let m2 := write16 m1 8194 1
  let m3 := write16 m2 8196 0
  storeList m3 16384 (le32b 4 ++ le32b 0 ++ le64b 0)

/-- Scene A machine after configuration and QUEUE_NOTIFY. -/
def sceneFlushAfter : BlockMachine :=
  blk_mmio_write (mmioSeq (virtio_block_init bfRW sceneFlushMem) cfgWrites)
    80 0 2

/-- Scene B: one available chain carrying a type 1 (OUT) write request of
one 512-byte sector: a 16-byte header descriptor, a 512-byte read-only
payload descriptor, and a 1-byte writable status descriptor. -/
def sceneOutMem : Mem :=
  let m1 := storeList zeroMem 4096 (descBytes 16384 16 1 1)
  let m2 := storeList m1 4112 (descBytes 16896 512 1 2)
  let m3 := storeList m2 4128 (descBytes 17500 1 2 0)
  let m4 := write16 m3 8194 1
  let m5 := write16 m4 8196 0
  storeList m5 16384 (le32b 1 ++ le32b 0 ++ le64b 0)

/-- Scene B on a read-only backing file, after configuration and notify. -/
def sceneOutRoAfter : BlockMachine :=
  blk_mmio_write (mmioSeq (virtio_block_init bfRO sceneOutMem) cfgWrites)
    80 0 2

/-- Scene C: two available chains, first a FLUSH chain (skipped without a
used-ring entry), then a header-only OUT chain with a writable status
byte (consumed with one used-ring entry). -/
def sceneMixMem : Mem :=
  let m1 := storeList zeroMem 4096 (descBytes 16384 16 0 0)
  let m2 := storeList m1 4112 (descBytes 16640 16 1 2)
  let m3 := storeList m2 4128 (descBytes 17000 1 2 0)
  let m4 := write16 m3 8194 2
  let m5 := write16 m4 8196 0
  let m6 := write16 m5 8198 1
  let m7 := storeList m6 16384 (le32b 4 ++ le32b 0 ++ le64b 0)
  storeList m7 16640 (le32b 1 ++ le32b 0 ++ le64b 0)

/-- Scene C machine after configuration and QUEUE_NOTIFY. -/
def sceneMixAfter : BlockMachine :=
  blk_mmio_write (mmioSeq (virtio_block_init bfRW sceneMixMem) cfgWrites)
    80 0 2

/-! ## 9P wire codec (marshall / unmarshall) -/

/-- A server-assigned file identity (FSQID). -/
structure FSQID where
  type : Nat
  version : Nat
  path : Nat
deriving Repr, DecidableEq

/-- A typed argument of the marshall / unmarshall codec, one constructor
per format letter. -/
inductive P9Val where
  | b (v : Nat)
  | h (v : Nat)
  | w (v : Nat)
  | d (v : Nat)
  | s (v : List Nat)
  | q (v : FSQID)
deriving Repr, DecidableEq

/-- The 13 wire bytes of a qid (marshall case Q). -/
def qidBytes (qid : FSQID) : List Nat :=
  [qid.type % 256] ++ le32b qid.version ++ le64b qid.path

/-- marshall: serialise the values following the format string into the
out buffer; none models the C assert aborts (buffer overflow, oversized
string, unknown format letter) and an argument of the wrong kind. -/
def marshallAux (max_len : Nat) : List Char → List P9Val → List Nat →
    Option (List Nat)
  | [], _, acc => some acc
  | c :: fmt, vals, acc =>
    match c, vals with
    | 'b', .b v :: rest =>
      if acc.length + 1 ≤ max_len then
        marshallAux max_len fmt rest (acc ++ [v % 256])
      else none
    | 'h', .h v :: rest =>
      if acc.length + 2 ≤ max_len then
        marshallAux max_len fmt rest (acc ++ le16b v)
      else none
    | 'w', .w v :: rest =>
      if acc.length + 4 ≤ max_len then
        marshallAux max_len fmt rest (acc ++ le32b v)
      else none
    | 'd', .d v :: rest =>
      if acc.length + 8 ≤ max_len then
        marshallAux max_len fmt rest (acc ++ le64b v)
      else none
    | 's', .s str :: rest =>
      if str.length ≤ 65535 ∧ acc.length + 2 + str.length ≤ max_len then
        marshallAux max_len fmt rest (acc ++ le16b str.length ++ str)
      else none
    | 'Q', .q qid :: rest =>
      if acc.length + 13 ≤ max_len then
        marshallAux max_len fmt rest (acc ++ qidBytes qid)
      else none
    | _, _ => none

def marshall (max_len : Nat) (fmt : List Char) (vals : List P9Val) :
    Option (List Nat) :=
  marshallAux max_len fmt vals []

/-- unmarshall: decode the format letters from the descriptor chain at
the running offset; none models the -1 return on any short read. -/
def unmarshallAux (mem : Mem) (desc_addr desc_idx : Nat) :
    List Char → Nat → List P9Val → Option (List P9Val × Nat)
  | [], offset, acc => some (acc, offset)
  | c :: fmt, offset, acc =>
    match c with
    | 'b' =>
      match memcpy_from_queue mem desc_addr desc_idx offset 1 with
      | (bs, true) =>
        unmarshallAux mem desc_addr desc_idx fmt (offset + 1)
          (acc ++ [.b (bs.getD 0 0 % 256)])
      | (_, false) => none
    | 'h' =>
      match memcpy_from_queue mem desc_addr desc_idx offset 2 with
      | (bs, true) =>
        unmarshallAux mem desc_addr desc_idx fmt (offset + 2)
          (acc ++ [.h (read16l bs 0)])
      | (_, false) => none
    | 'w' =>
      match memcpy_from_queue mem desc_addr desc_idx offset 4 with
      | (bs, true) =>
        unmarshallAux mem desc_addr desc_idx fmt (offset + 4)
          (acc ++ [.w (read32l bs 0)])
      | (_, false) => none
    | 'd' =>
      match memcpy_from_queue mem desc_addr desc_idx offset 8 with
      | (bs, true) =>
        unmarshallAux mem desc_addr desc_idx fmt (offset + 8)
          (acc ++ [.d (read64l bs 0)])
      | (_, false) => none
    | 's' =>
      match memcpy_from_queue mem desc_addr desc_idx offset 2 with
      | (bs, true) =>
        let len := read16l bs 0
        match memcpy_from_queue mem desc_addr desc_idx (offset + 2) len with
        | (sb, true) =>
          unmarshallAux mem desc_addr desc_idx fmt (offset + 2 + len)
            (acc ++ [.s sb])
        | (_, false) => none
      | (_, false) => none
    | _ => none

def unmarshall (mem : Mem) (desc_addr desc_idx : Nat) (fmt : List Char)
    (offset : Nat) : Option (List P9Val × Nat) :=
  unmarshallAux mem desc_addr desc_idx fmt offset []

/-! ## 9P reply frames -/

/-- The reply frame built by virtio_9p_send_reply: 4-byte little-endian
total length (payload plus the 7 header bytes), the id byte (the argument
plus one), the 2-byte tag, then the payload. -/
def p9_reply_frame (id tag : Nat) (payload : List Nat) : List Nat :=
  le32b (payload.length + 7) ++ [(id + 1) % 256] ++ le16b tag ++ payload

/-- virtio_9p_send_reply: write the frame at offset 0 of the writable part
of the chain and consume the chain with the frame length. -/
def virtio_9p_send_reply {E : Type} (m : Machine E)
    (queue_idx desc_idx id tag : Nat) (payload : List Nat) : Machine E :=
  let frame := p9_reply_frame id tag payload
  let r := memcpy_to_queue m.mem ((m.dev.queue queue_idx).desc_addr)
    desc_idx 0 frame
  virtio_consume_desc (setMem m r.1) queue_idx desc_idx frame.length

/-- Conversion of a C int to uint32_t (twos complement). -/
def intToU32 (e : Int) : Nat := (e % 4294967296).toNat

/-- Unary minus on uint32_t. -/
def u32neg (v : Nat) : Nat := (4294967296 - v % 4294967296) % 4294967296

/-- virtio_9p_send_error: an RLERROR reply carrying -error; the id
argument is the literal 6, so the wire id byte becomes 7. -/
def virtio_9p_send_error {E : Type} (m : Machine E)
    (queue_idx desc_idx tag error : Nat) : Machine E :=
  match marshall 4 ['w'] [.w (u32neg error)] with
  | some payload => virtio_9p_send_reply m queue_idx desc_idx 6 tag payload
  | none => m

/-! ## 9P file-service interface and FID table

The host file-system back-end (fs.h / fs_disk, not part of src/) is an
external interface per the spec; it is abstracted as a record of pure
state-transformer operations over an opaque service state F and opaque
file handles H, with the two protocol errno constants as fields. -/

structure FSStatFS where
  f_bsize : Nat
  f_blocks : Nat
  f_bfree : Nat
  f_bavail : Nat
  f_files : Nat
  f_ffree : Nat
deriving Repr, DecidableEq

structure FSStat where
  qid : FSQID
  st_mode : Nat
  st_uid : Nat
  st_gid : Nat
  st_nlink : Nat
  st_rdev : Nat
  st_size : Nat
  st_blksize : Nat
  st_blocks : Nat
  st_atime_sec : Nat
  st_atime_nsec : Nat
  st_mtime_sec : Nat
  st_mtime_nsec : Nat
  st_ctime_sec : Nat
  st_ctime_nsec : Nat
deriving Repr, DecidableEq

structure FSLock where
  type : Nat
  flags : Nat
  start : Nat
  length : Nat
  proc_id : Nat
  client_id : List Nat
deriving Repr, DecidableEq

/-- The abstract file-service back-end.  Functions returning Int use the C
convention: 0 or a count on success, negative errno on failure; openf may
also return a positive value meaning asynchronous completion. -/
structure FSOps (F H : Type) where
  statfs : F → FSStatFS
  openf : F → H → Nat → F × Int × FSQID
  create : F → H → List Nat → Nat → Nat → Nat → F × Int × FSQID
  symlink : F → H → List Nat → List Nat → Nat → F × Int × FSQID
  mknod : F → H → List Nat → Nat → Nat → Nat → Nat → F × Int × FSQID
  readlink : F → H → F × Int × List Nat
  stat : F → H → F × Int × FSStat
  setattr : F → H → Nat → Nat → Nat → Nat → Nat → Nat → Nat → Nat → Nat → F × Int
  readdir : F → H → Nat → Nat → F × Int × List Nat
  lockf : F → H → FSLock → F × Int
  getlock : F → H → FSLock → F × Int × FSLock
  link : F → H → H → List Nat → F × Int
  mkdir : F → H → List Nat → Nat → Nat → F × Int × FSQID
  renameat : F → H → List Nat → H → List Nat → F × Int
  unlinkat : F → H → List Nat → F × Int
  attach : F → Nat → List Nat → List Nat → F × Int × H × FSQID
  walk : F → H → List (List Nat) → F × Int × H × List FSQID
  readf : F → H → Nat → Nat → F × Int × List Nat
  writef : F → H → Nat → List Nat → F × Int
  delete : F → H → F
  eproto : Nat
  enotsup : Nat

/-- Device-specific state of VIRTIO9PDevice: file-service state, the
negotiated msize, the FID list (most recently added first, like the
intrusive list of the source), and the single-request flag. -/
structure P9Ext (F H : Type) where
  fs : F
  msize : Nat
  fids : List (Nat × H)
  req_in_progress : Bool

abbrev P9Machine (F H : Type) := Machine (P9Ext F H)

/-- fid_find: first list entry with a matching fid. -/
def fid_find {H : Type} : List (Nat × H) → Nat → Option H
  | [], _ => none
  | p :: rest, fid => if p.1 = fid then some p.2 else fid_find rest fid

/-- Remove the first entry with a matching fid (list_del in fid_delete). -/
def fid_erase {H : Type} : List (Nat × H) → Nat → List (Nat × H)
  | [], _ => []
  | p :: rest, fid => if p.1 = fid then rest else p :: fid_erase rest fid

/-- Replace the handle of the first entry with a matching fid. -/
def fid_replace {H : Type} : List (Nat × H) → Nat → H → List (Nat × H)
  | [], _, _ => []
  | p :: rest, fid, fd =>
    if p.1 = fid then (fid, fd) :: rest else p :: fid_replace rest fid fd

/-- fid_delete: drop the binding and release the handle. -/
def fid_delete {F H : Type} (ops : FSOps F H) (e : P9Ext F H) (fid : Nat) :
    P9Ext F H :=
  match fid_find e.fids fid with
  | none => e
  | some fd =>
    { e with fs := ops.delete e.fs fd, fids := fid_erase e.fids fid }

/-- fid_set: rebind an existing fid (releasing the old handle) or prepend
a new binding. -/
def fid_set {F H : Type} (ops : FSOps F H) (e : P9Ext F H) (fid : Nat)
    (fd : H) : P9Ext F H :=
  match fid_find e.fids fid with
  | some old =>
    { e with fs := ops.delete e.fs old, fids := fid_replace e.fids fid fd }
  | none => { e with fids := (fid, fd) :: e.fids }

/-! ## 9P request handler -/

def strBytes (s : String) : List Nat := s.toList.map Char.toNat

/-- The error exit of virtio_9p_recv_request: send an RLERROR reply and
return 0. -/
def p9_error_ret {F H : Type} (m : P9Machine F H) (qi di tag : Nat)
    (err : Int) : P9Machine F H × Int :=
  (virtio_9p_send_error m qi di tag (intToU32 err), 0)

/-- A success reply followed by return 0. -/
def p9_reply_ret {F H : Type} (m : P9Machine F H) (qi di id tag : Nat)
    (payload : List Nat) : P9Machine F H × Int :=
  (virtio_9p_send_reply m qi di id tag payload, 0)

def withFs {F H : Type} (m : P9Machine F H) (fs : F) : P9Machine F H :=
  { m with ext := { m.ext with fs := fs } }

def withP9Ext {F H : Type} (m : P9Machine F H) (e : P9Ext F H) :
    P9Machine F H :=
  { m with ext := e }

/-- virtio_9p_open_reply: error reply or Qw reply with msize - 24 for
opcode 12 (lopen). -/
def virtio_9p_open_reply {F H : Type} (m : P9Machine F H)
    (qi di tag : Nat) (err : Int) (qid : FSQID) : P9Machine F H × Int :=
  if err < 0 then p9_error_ret m qi di tag err
  else
    match marshall 32 ['Q', 'w']
        [.q qid, .w (intToU32 ((m.ext.msize : Int) - 24))] with
    | some payload => p9_reply_ret m qi di 12 tag payload
    | none => (m, 0)

/-- The nwname-string loop of the walk opcode. -/
def walkNames (mem : Mem) (desc_addr desc_idx : Nat) :
    Nat → Nat → List (List Nat) → Option (List (List Nat) × Nat)
  | 0, offset, acc => some (acc, offset)
  | n + 1, offset, acc =>
    match unmarshall mem desc_addr desc_idx ['s'] offset with
    | some ([.s name], off2) =>
      walkNames mem desc_addr desc_idx n off2 (acc ++ [name])
    | _ => none

/-- The walk reply payload: nqid as u16 then nqid qids, marshalled one at
a time into the remaining space of the 1024-byte reply buffer. -/
def walkReply (nq : Nat) (qids : List FSQID) : Option (List Nat) :=
  (qids.take nq).foldl
    (fun acc qid =>
      match acc with
      | none => none
      | some l =>
        match marshall (1024 - l.length) ['Q'] [.q qid] with
        | none => none
        | some qb => some (l ++ qb))
    (marshall 1024 ['h'] [.h nq])

/-- The getattr reply payload exactly as built at the opcode-24 marshall
call of virtio_9p_recv_request (format dQwww then fifteen d). -/
def virtio_9p_getattr_payload (mask : Nat) (st : FSStat) :
    Option (List Nat) :=
  marshall 1024 "dQwwwddddddddddddddd".toList
    [.d mask, .q st.qid, .w st.st_mode, .w st.st_uid, .w st.st_gid,
     .d st.st_nlink, .d st.st_rdev, .d st.st_size, .d st.st_blksize,
     .d st.st_blocks, .d st.st_atime_sec, .d st.st_atime_nsec,
     .d st.st_mtime_sec, .d st.st_mtime_nsec, .d st.st_ctime_sec,
     .d st.st_ctime_nsec, .d 0, .d 0, .d 0, .d 0]

/-- virtio_9p_recv_request: the full dispatch switch.  Marshall failures
(assert aborts in C) return the machine unchanged with 0; the
asynchronous lopen completion callback is outside the recv path and both
devices of this repository run their back-ends synchronously.  The
getlock reply marshall mirrors the values of the lock structure (the C
call site erroneously passes pointers, so the actual wire bytes there are
unspecified). -/
def virtio_9p_recv_request {F H : Type} (ops : FSOps F H) :
    RecvFn (P9Ext F H) :=
  fun m queue_idx desc_idx _read_size _write_size =>
  if queue_idx ≠ 0 then (m, 0)
  else if m.ext.req_in_progress then (m, -1)
  else
    let desc_addr := (m.dev.queue queue_idx).desc_addr
    let eproto : Int := -(ops.eproto : Int)
    match memcpy_from_queue m.mem desc_addr desc_idx 0 7 with
    | (_, false) => p9_error_ret m queue_idx desc_idx 0 eproto
    | (hdr, true) =>
      let id := hdr.getD 4 0 % 256
      let tag := read16l hdr 5
      match id with
      | 8 =>
        let st := ops.statfs m.ext.fs
        match marshall 1024 "wwddddddw".toList
            [.w 0, .w st.f_bsize, .d st.f_blocks, .d st.f_bfree,
             .d st.f_bavail, .d st.f_files, .d st.f_ffree, .d 0, .w 256] with
        | some payload => p9_reply_ret m queue_idx desc_idx id tag payload
        | none => (m, 0)
      | 12 =>
        match unmarshall m.mem desc_addr desc_idx ['w', 'w'] 7 with
        | some ([.w fid, .w flags], _) =>
          match fid_find m.ext.fids fid with
          | none => p9_error_ret m queue_idx desc_idx tag eproto
          | some f =>
            let r := ops.openf m.ext.fs f flags
            let m2 := withFs m r.1
            if r.2.1 ≤ 0 then
              virtio_9p_open_reply m2 queue_idx desc_idx tag r.2.1 r.2.2
            else
              (withP9Ext m2 { m2.ext with req_in_progress := true }, 0)
        | _ => p9_error_ret m queue_idx desc_idx tag eproto
      | 14 =>
        match unmarshall m.mem desc_addr desc_idx ['w', 's', 'w', 'w', 'w'] 7 with
        | some ([.w fid, .s name, .w flags, .w mode, .w gid], _) =>
          match fid_find m.ext.fids fid with
          | none => p9_error_ret m queue_idx desc_idx tag eproto
          | some f =>
            let r := ops.create m.ext.fs f name flags mode gid
            let m2 := withFs m r.1
            if r.2.1 ≠ 0 then p9_error_ret m2 queue_idx desc_idx tag r.2.1
            else
              match marshall 1024 ['Q', 'w']
                  [.q r.2.2, .w (intToU32 ((m2.ext.msize : Int) - 24))] with
              | some payload => p9_reply_ret m2 queue_idx desc_idx id tag payload
              | none => (m2, 0)
        | _ => p9_error_ret m queue_idx desc_idx tag eproto
      | 16 =>
        match unmarshall m.mem desc_addr desc_idx ['w', 's', 's', 'w'] 7 with
        | some ([.w fid, .s name, .s symgt, .w gid], _) =>
          match fid_find m.ext.fids fid with
          | none => p9_error_ret m queue_idx desc_idx tag eproto
          | some f =>
            let r := ops.symlink m.ext.fs f name symgt gid
            let m2 := withFs m r.1
            if r.2.1 ≠ 0 then p9_error_ret m2 queue_idx desc_idx tag r.2.1
            else
              match marshall 1024 ['Q'] [.q r.2.2] with
              | some payload => p9_reply_ret m2 queue_idx desc_idx id tag payload
              | none => (m2, 0)
        | _ => p9_error_ret m queue_idx desc_idx tag eproto
      | 18 =>
        match unmarshall m.mem desc_addr desc_idx
            ['w', 's', 'w', 'w', 'w', 'w'] 7 with
        | some ([.w fid, .s name, .w mode, .w major, .w minor, .w gid], _) =>
          match fid_find m.ext.fids fid with
          | none => p9_error_ret m queue_idx desc_idx tag eproto
          | some f =>
            let r := ops.mknod m.ext.fs f name mode major minor gid
            let m2 := withFs m r.1
            if r.2.1 ≠ 0 then p9_error_ret m2 queue_idx desc_idx tag r.2.1
            else
              match marshall 1024 ['Q'] [.q r.2.2] with
              | some payload => p9_reply_ret m2 queue_idx desc_idx id tag payload
              | none => (m2, 0)
        | _ => p9_error_ret m queue_idx desc_idx tag eproto
      | 22 =>
        match unmarshall m.mem desc_addr desc_idx ['w'] 7 with
        | some ([.w fid], _) =>
          match fid_find m.ext.fids fid with
          | none => p9_error_ret m queue_idx desc_idx tag eproto
          | some f =>
            let r := ops.readlink m.ext.fs f
            let m2 := withFs m r.1
            if r.2.1 ≠ 0 then p9_error_ret m2 queue_idx desc_idx tag r.2.1
            else
              match marshall 1024 ['s'] [.s r.2.2] with
              | some payload => p9_reply_ret m2 queue_idx desc_idx id tag payload
              | none => (m2, 0)
        | _ => p9_error_ret m queue_idx desc_idx tag eproto
      | 24 =>
        match unmarshall m.mem desc_addr desc_idx ['w', 'd'] 7 with
        | some ([.w fid, .d mask], _) =>
          match fid_find m.ext.fids fid with
          | none => p9_error_ret m queue_idx desc_idx tag eproto
          | some f =>
            let r := ops.stat m.ext.fs f
            let m2 := withFs m r.1
            if r.2.1 ≠ 0 then p9_error_ret m2 queue_idx desc_idx tag r.2.1
            else
              match virtio_9p_getattr_payload mask r.2.2 with
              | some payload => p9_reply_ret m2 queue_idx desc_idx id tag payload
              | none => (m2, 0)
        | _ => p9_error_ret m queue_idx desc_idx tag eproto
      | 26 =>
        match unmarshall m.mem desc_addr desc_idx
            ['w', 'w', 'w', 'w', 'w', 'd', 'd', 'd', 'd', 'd'] 7 with
        | some ([.w fid, .w mask, .w mode, .w uid, .w gid, .d size,
                 .d atime_sec, .d atime_nsec, .d mtime_sec, .d mtime_nsec], _) =>
          match fid_find m.ext.fids fid with
          | none => p9_error_ret m queue_idx desc_idx tag eproto
          | some f =>
            let r := ops.setattr m.ext.fs f mask mode uid gid size atime_sec
              atime_nsec mtime_sec mtime_nsec
            let m2 := withFs m r.1
            if r.2 ≠ 0 then p9_error_ret m2 queue_idx desc_idx tag r.2
            else p9_reply_ret m2 queue_idx desc_idx id tag []
        | _ => p9_error_ret m queue_idx desc_idx tag eproto
      | 30 =>
        p9_error_ret m queue_idx desc_idx tag (-(ops.enotsup : Int))
      | 40 =>
        match unmarshall m.mem desc_addr desc_idx ['w', 'd', 'w'] 7 with
        | some ([.w fid, .d offs, .w count], _) =>
          match fid_find m.ext.fids fid with
          | none => p9_error_ret m queue_idx desc_idx tag eproto
          | some f =>
            let r := ops.readdir m.ext.fs f offs count
            let m2 := withFs m r.1
            if r.2.1 < 0 then p9_error_ret m2 queue_idx desc_idx tag r.2.1
            else
              let n := r.2.1.toNat
              p9_reply_ret m2 queue_idx desc_idx id tag
                (le32b n ++ padTo n r.2.2)
        | _ => p9_error_ret m queue_idx desc_idx tag eproto
      | 50 =>
        match unmarshall m.mem desc_addr desc_idx ['w'] 7 with
        | some ([.w _fid], _) => p9_reply_ret m queue_idx desc_idx id tag []
        | _ => p9_error_ret m queue_idx desc_idx tag eproto
      | 52 =>
        match unmarshall m.mem desc_addr desc_idx
            ['w', 'b', 'w', 'd', 'd', 'w', 's'] 7 with
        | some ([.w fid, .b ltype, .w lflags, .d lstart, .d llength,
                 .w lproc, .s lclient], _) =>
          let lock : FSLock :=
            { type := ltype, flags := lflags, start := lstart,
              length := llength, proc_id := lproc, client_id := lclient }
          match fid_find m.ext.fids fid with
          | none => p9_error_ret m queue_idx desc_idx tag eproto
          | some f =>
            let r := ops.lockf m.ext.fs f lock
            let m2 := withFs m r.1
            if r.2 < 0 then p9_error_ret m2 queue_idx desc_idx tag r.2
            else
              match marshall 1024 ['b'] [.b r.2.toNat] with
              | some payload => p9_reply_ret m2 queue_idx desc_idx id tag payload
              | none => (m2, 0)
        | _ => p9_error_ret m queue_idx desc_idx tag eproto
      | 54 =>
        match unmarshall m.mem desc_addr desc_idx
            ['w', 'b', 'd', 'd', 'w', 's'] 7 with
        | some ([.w fid, .b ltype, .d lstart, .d llength, .w lproc,
                 .s lclient], _) =>
          let lock : FSLock :=
            { type := ltype, flags := 0, start := lstart, length := llength,
              proc_id := lproc, client_id := lclient }
          match fid_find m.ext.fids fid with
          | none => p9_error_ret m queue_idx desc_idx tag eproto
          | some f =>
            let r := ops.getlock m.ext.fs f lock
            let m2 := withFs m r.1
            if r.2.1 < 0 then p9_error_ret m2 queue_idx desc_idx tag r.2.1
            else
              match marshall 1024 ['b', 'd', 'd', 'w', 's']
                  [.b r.2.2.type, .d r.2.2.start, .d r.2.2.length,
                   .w r.2.2.proc_id, .s r.2.2.client_id] with
              | some payload => p9_reply_ret m2 queue_idx desc_idx id tag payload
              | none => (m2, 0)
        | _ => p9_error_ret m queue_idx desc_idx tag eproto
      | 70 =>
        match unmarshall m.mem desc_addr desc_idx ['w', 'w', 's'] 7 with
        | some ([.w dfid, .w fid, .s name], _) =>
          match fid_find m.ext.fids dfid, fid_find m.ext.fids fid with
          | some df, some f =>
            let r := ops.link m.ext.fs df f name
            let m2 := withFs m r.1
            if r.2 ≠ 0 then p9_error_ret m2 queue_idx desc_idx tag r.2
            else p9_reply_ret m2 queue_idx desc_idx id tag []
          | _, _ => p9_error_ret m queue_idx desc_idx tag eproto
        | _ => p9_error_ret m queue_idx desc_idx tag eproto
      | 72 =>
        match unmarshall m.mem desc_addr desc_idx ['w', 's', 'w', 'w'] 7 with
        | some ([.w fid, .s name, .w mode, .w gid], _) =>
          match fid_find m.ext.fids fid with
          | none => p9_error_ret m queue_idx desc_idx tag eproto
          | some f =>
            let r := ops.mkdir m.ext.fs f name mode gid
            let m2 := withFs m r.1
            if r.2.1 ≠ 0 then p9_error_ret m2 queue_idx desc_idx tag r.2.1
            else
              match marshall 1024 ['Q'] [.q r.2.2] with
              | some payload => p9_reply_ret m2 queue_idx desc_idx id tag payload
              | none => (m2, 0)
        | _ => p9_error_ret m queue_idx desc_idx tag eproto
      | 74 =>
        match unmarshall m.mem desc_addr desc_idx ['w', 's', 'w', 's'] 7 with
        | some ([.w fid, .s name, .w new_fid, .s new_name], _) =>
          match fid_find m.ext.fids fid, fid_find m.ext.fids new_fid with
          | some f, some new_f =>
            let r := ops.renameat m.ext.fs f name new_f new_name
            let m2 := withFs m r.1
            if r.2 ≠ 0 then p9_error_ret m2 queue_idx desc_idx tag r.2
            else p9_reply_ret m2 queue_idx desc_idx id tag []
          | _, _ => p9_error_ret m queue_idx desc_idx tag eproto
        | _ => p9_error_ret m queue_idx desc_idx tag eproto
      | 76 =>
        match unmarshall m.mem desc_addr desc_idx ['w', 's', 'w'] 7 with
        | some ([.w fid, .s name, .w _flags], _) =>
          match fid_find m.ext.fids fid with
          | none => p9_error_ret m queue_idx desc_idx tag eproto
          | some f =>
            let r := ops.unlinkat m.ext.fs f name
            let m2 := withFs m r.1
            if r.2 ≠ 0 then p9_error_ret m2 queue_idx desc_idx tag r.2
            else p9_reply_ret m2 queue_idx desc_idx id tag []
        | _ => p9_error_ret m queue_idx desc_idx tag eproto
      | 100 =>
        match unmarshall m.mem desc_addr desc_idx ['w', 's'] 7 with
        | some ([.w msize, .s _version], _) =>
          let m2 := withP9Ext m { m.ext with msize := msize }
          match marshall 1024 ['w', 's']
              [.w m2.ext.msize, .s (strBytes "9P2000.L")] with
          | some payload => p9_reply_ret m2 queue_idx desc_idx id tag payload
          | none => (m2, 0)
        | _ => p9_error_ret m queue_idx desc_idx tag eproto
      | 104 =>
        match unmarshall m.mem desc_addr desc_idx
            ['w', 'w', 's', 's', 'w'] 7 with
        | some ([.w fid, .w _afid, .s uname, .s aname, .w uid], _) =>
          let r := ops.attach m.ext.fs uid uname aname
          let m2 := withFs m r.1
          if r.2.1 ≠ 0 then p9_error_ret m2 queue_idx desc_idx tag r.2.1
          else
            let m3 := withP9Ext m2 (fid_set ops m2.ext fid r.2.2.1)
            match marshall 1024 ['Q'] [.q r.2.2.2] with
            | some payload => p9_reply_ret m3 queue_idx desc_idx id tag payload
            | none => (m3, 0)
        | _ => p9_error_ret m queue_idx desc_idx tag eproto
      | 108 =>
        match unmarshall m.mem desc_addr desc_idx ['h'] 7 with
        | some ([.h _oldtag], _) => p9_reply_ret m queue_idx desc_idx id tag []
        | _ => p9_error_ret m queue_idx desc_idx tag eproto
      | 110 =>
        match unmarshall m.mem desc_addr desc_idx ['w', 'w', 'h'] 7 with
        | some ([.w fid, .w newfid, .h nwname], off) =>
          match fid_find m.ext.fids fid with
          | none => p9_error_ret m queue_idx desc_idx tag eproto
          | some f =>
            match walkNames m.mem desc_addr desc_idx nwname off [] with
            | none => p9_error_ret m queue_idx desc_idx tag eproto
            | some (names, _) =>
              let r := ops.walk m.ext.fs f names
              let m2 := withFs m r.1
              if r.2.1 < 0 then p9_error_ret m2 queue_idx desc_idx tag r.2.1
              else
                match walkReply r.2.1.toNat r.2.2.2 with
                | none => (m2, 0)
                | some payload =>
                  let m3 := withP9Ext m2 (fid_set ops m2.ext newfid r.2.2.1)
                  p9_reply_ret m3 queue_idx desc_idx id tag payload
        | _ => p9_error_ret m queue_idx desc_idx tag eproto
      | 116 =>
        match unmarshall m.mem desc_addr desc_idx ['w', 'd', 'w'] 7 with
        | some ([.w fid, .d offs, .w count], _) =>
          match fid_find m.ext.fids fid with
          | none => p9_error_ret m queue_idx desc_idx tag eproto
          | some f =>
            let r := ops.readf m.ext.fs f offs count
            let m2 := withFs m r.1
            if r.2.1 < 0 then p9_error_ret m2 queue_idx desc_idx tag r.2.1
            else
              let n := r.2.1.toNat
              p9_reply_ret m2 queue_idx desc_idx id tag
                (le32b n ++ padTo n r.2.2)
        | _ => p9_error_ret m queue_idx desc_idx tag eproto
      | 118 =>
        match unmarshall m.mem desc_addr desc_idx ['w', 'd', 'w'] 7 with
        | some ([.w fid, .d offs, .w count], off) =>
          match fid_find m.ext.fids fid with
          | none => p9_error_ret m queue_idx desc_idx tag eproto
          | some f =>
            match memcpy_from_queue m.mem desc_addr desc_idx off count with
            | (_, false) => p9_error_ret m queue_idx desc_idx tag eproto
            | (data, true) =>
              let r := ops.writef m.ext.fs f offs (padTo count data)
              let m2 := withFs m r.1
              if r.2 < 0 then p9_error_ret m2 queue_idx desc_idx tag r.2
              else
                match marshall 1024 ['w'] [.w (intToU32 r.2)] with
                | some payload => p9_reply_ret m2 queue_idx desc_idx id tag payload
                | none => (m2, 0)
        | _ => p9_error_ret m queue_idx desc_idx tag eproto
      | 120 =>
        match unmarshall m.mem desc_addr desc_idx ['w'] 7 with
        | some ([.w fid], _) =>
          let m2 := withP9Ext m (fid_delete ops m.ext fid)
          p9_reply_ret m2 queue_idx desc_idx id tag []
        | _ => p9_error_ret m queue_idx desc_idx tag eproto
      | _ => p9_error_ret m queue_idx desc_idx tag eproto

/-- 9P config space: u16 little-endian mount-tag length then the tag. -/
def p9Config (mount_tag : List Nat) : Nat → Nat :=
  fun i => (le16b mount_tag.length ++ mount_tag).getD i 0

/-- virtio_9p_init: device id 9, feature bit 0 (mount tag), msize 8192,
empty FID list. -/
def virtio_9p_init {F H : Type} (fs : F) (mount_tag : List Nat)
    (mem : Mem) : P9Machine F H :=
  { dev := init_regs 9 1 (2 + mount_tag.length) (p9Config mount_tag)
    mem := mem
    irq_level := 0
    ext := { fs := fs, msize := 8192, fids := [], req_in_progress := false } }

/-! ## Fixtures for witnesses: trivial back-ends and 9P scenes -/

/-- A recv callback that accepts every chain without doing anything; used
to instantiate the generic dispatch-loop theorems. -/
def recvNop {E : Type} : RecvFn E := fun m _ _ _ _ => (m, 0)

def qid0 : FSQID := { type := 0, version := 0, path := 0 }

/-- An all-zero stat record, used by concrete 9P theorems. -/
def statZero : FSStat :=
  { qid := qid0
    st_mode := 0, st_uid := 0, st_gid := 0, st_nlink := 0, st_rdev := 0,
    st_size := 0, st_blksize := 0, st_blocks := 0, st_atime_sec := 0,
    st_atime_nsec := 0, st_mtime_sec := 0, st_mtime_nsec := 0,
    st_ctime_sec := 0, st_ctime_nsec := 0 }

/-- A trivial file-service instance over unit states. -/
def unitFS : FSOps Unit Unit :=
  { statfs := fun _ => ⟨0, 0, 0, 0, 0, 0⟩
    openf := fun f _ _ => (f, 0, qid0)
    create := fun f _ _ _ _ _ => (f, 0, qid0)
    symlink := fun f _ _ _ _ => (f, 0, qid0)
    mknod := fun f _ _ _ _ _ _ => (f, 0, qid0)
    readlink := fun f _ => (f, 0, [])
    stat := fun f _ => (f, 0, statZero)
    setattr := fun f _ _ _ _ _ _ _ _ _ _ => (f, 0)
    readdir := fun f _ _ _ => (f, 0, [])
    lockf := fun f _ _ => (f, 0)
    getlock := fun f _ l => (f, 0, l)
    link := fun f _ _ _ => (f, 0)
    mkdir := fun f _ _ _ _ => (f, 0, qid0)
    renameat := fun f _ _ _ _ => (f, 0)
    unlinkat := fun f _ _ => (f, 0)
    attach := fun f _ _ _ => (f, 0, (), qid0)
    walk := fun f h _ => (f, 0, h, [])
    readf := fun f _ _ _ => (f, 0, [])
    writef := fun f _ _ _ => (f, 0)
    delete := fun f _ => f
    eproto := 71
    enotsup := 95 }

/-- MMIO writes on the 9P device instantiated with the trivial back-end. -/
def p9_mmio_write (m : P9Machine Unit Unit) (offset val size_log2 : Nat) :
    P9Machine Unit Unit :=
  virtio_mmio_write (virtio_9p_recv_request unitFS) m offset val size_log2

def mmioSeqP9 (m : P9Machine Unit Unit) (ws : List (Nat × Nat)) :
    P9Machine Unit Unit :=
  ws.foldl (fun acc p => p9_mmio_write acc p.1 p.2 2) m

/-- Scene P: a single writable 32-byte descriptor for a 9P reply. -/
def sceneP9Mem : Mem :=
  storeList zeroMem 4096 (descBytes 16384 32 2 0)

/-- The configured 9P machine of scene P. -/
def sceneP9 : P9Machine Unit Unit :=
  mmioSeqP9 (virtio_9p_init () [] sceneP9Mem) cfgWrites

/-- Scene P after virtio_9p_send_error with tag 5 and errno 71 (the error
argument is -71 converted to uint32_t, as at the call sites). -/
def sceneP9ErrAfter : P9Machine Unit Unit :=
  virtio_9p_send_error sceneP9 0 0 5 (intToU32 (-71))

/-- A block machine whose queue 0 has manual_recv set (the flag is only
ever set by embedding code, never by the guest). -/
def sceneManual : BlockMachine :=
  let m := mmioSeq (virtio_block_init bfRW sceneFlushMem) cfgWrites
  let q0 := { m.dev.queue 0 with manual_recv := true }
  { m with dev := { m.dev with queue := fun i =>
      if i = 0 then q0 else m.dev.queue i } }

/-- The configured scene-A machine before QUEUE_NOTIFY. -/
def sceneFlushCfg : BlockMachine :=
  mmioSeq (virtio_block_init bfRW sceneFlushMem) cfgWrites

/-- The scene-A machine with a request marked in progress, so recv
answers -1. -/
def sceneBusy : BlockMachine :=
  let m := sceneFlushCfg
  { m with ext := { m.ext with req_in_progress := true } }

/-- The configured scene-B machine (read-write backing file) before
QUEUE_NOTIFY. -/
def sceneOutCfg : BlockMachine :=
  mmioSeq (virtio_block_init bfRW sceneOutMem) cfgWrites

/-- Scene D: one available chain carrying a type 0 (IN) read request: a
16-byte read-only header descriptor and a 513-byte writable
data-plus-status descriptor. -/
def sceneInMem : Mem :=
  let m1 := storeList zeroMem 4096 (descBytes 16384 16 1 1)
  let m2 := storeList m1 4112 (descBytes 16896 513 2 0)
  let m3 := write16 m2 8194 1
  storeList m3 16384 (le32b 0 ++ le32b 0 ++ le64b 0)

/-- The configured scene-D machine before QUEUE_NOTIFY. -/
def sceneInCfg : BlockMachine :=
  mmioSeq (virtio_block_init bfRW sceneInMem) cfgWrites

/-! ## Reachability and invariants -/

/-- Device states reachable from a start state by MMIO register writes
(of any offset, value and size; reads do not mutate state) interleaved
with arbitrary guest stores to memory. -/
inductive Reach {E : Type} (recv : RecvFn E) (m0 : Machine E) :
    Machine E → Prop where
  | refl : Reach recv m0 m0
  | mmio : ∀ {m} (off val sz : Nat), Reach recv m0 m →
      Reach recv m0 (virtio_mmio_write recv m off val sz)
  | guest : ∀ {m} (mem : Mem), Reach recv m0 m →
      Reach recv m0 (setMem m mem)

def isPow2 (n : Nat) : Prop := ∃ k, n = 2 ^ k

/-- The queue-number invariant: every real queue has a power-of-two num. -/
def QueueNumInv {E : Type} (m : Machine E) : Prop :=
  ∀ i < MAX_QUEUE, isPow2 ((m.dev.queue i).num)

/-- The interrupt-line invariant: the line level is 1 exactly when some
int_status bit is pending, and 0 otherwise. -/
def IrqInv {E : Type} (m : Machine E) : Prop :=
  m.irq_level = if m.dev.int_status = 0 then 0 else 1

/-- A recv callback that never touches the queue configuration (both
devices of this repository only modify guest memory, the interrupt state
and their private extension state). -/
def RecvPreservesQueues {E : Type} (recv : RecvFn E) : Prop :=
  ∀ mm qi di rs ws, ((recv mm qi di rs ws).1).dev.queue = mm.dev.queue

/-- A recv callback that preserves the interrupt-line invariant. -/
def RecvPreservesIrqInv {E : Type} (recv : RecvFn E) : Prop :=
  ∀ mm qi di rs ws, IrqInv mm → IrqInv ((recv mm qi di rs ws).1)

/-! ## Supporting lemmas: structural preservation and reachability -/


theorem lor_one_ne_zero (a : Nat) : Nat.lor a 1 ≠ 0 := by
  intro h
  have ht := Nat.testBit_lor a 1 0
  rw [show a ||| 1 = Nat.lor a 1 from rfl, h] at ht
  simp [Nat.testBit_zero] at ht

theorem consume_desc_queue {E : Type} (m : Machine E) (qi di l : Nat) :
    (virtio_consume_desc m qi di l).dev.queue = m.dev.queue := rfl

theorem bump_queue_num {E : Type} (m : Machine E) (qi i : Nat) :
    ((bump_last_avail m qi).dev.queue i).num = ((m.dev.queue i).num) := by
  unfold bump_last_avail
  dsimp only
  split
  · rename_i h; subst h; rfl
  · rfl

theorem notify_loop_queue_num {E : Type} (recv : RecvFn E)
    (hq : RecvPreservesQueues recv) (qi : Nat) :
    ∀ fuel (m : Machine E) (i : Nat),
      ((notify_loop recv qi fuel m).dev.queue i).num = ((m.dev.queue i).num) := by
  intro fuel
  induction fuel with
  | zero => intro m i; rfl
  | succ f ih =>
    intro m i
    unfold notify_loop
    dsimp only
    cases hgd : get_desc_rw_size m.mem (m.dev.queue qi).desc_addr
      (read16 m.mem (w64 ((m.dev.queue qi).avail_addr + 4 +
        (Nat.land (m.dev.queue qi).last_avail_idx (u32pred (m.dev.queue qi).num)) * 2))) with
    | none =>
      rw [ih]
      exact bump_queue_num m qi i
    | some p =>
      cases p with
      | mk rs ws =>
        dsimp only
        split
        · rw [congrArg (fun q => (q i).num) (hq m qi _ rs ws)]
        · rw [ih, bump_queue_num]
          rw [congrArg (fun q => (q i).num) (hq m qi _ rs ws)]

theorem queue_notify_queue_num {E : Type} (recv : RecvFn E)
    (hq : RecvPreservesQueues recv) (m : Machine E) (qi i : Nat) :
    ((queue_notify recv m qi).dev.queue i).num = ((m.dev.queue i).num) := by
  unfold queue_notify
  dsimp only
  split
  · rfl
  · exact notify_loop_queue_num recv hq qi _ m i

theorem config_write_queue (d : DeviceRegs) (off v s : Nat) :
    (virtio_config_write d off v s).queue = d.queue := by
  unfold virtio_config_write
  repeat' split
  all_goals rfl

theorem updateQueueSel_num (d : DeviceRegs) (f : QueueState → QueueState)
    (hf : ∀ q, (f q).num = q.num) (i : Nat) :
    ((updateQueueSel d f).queue i).num = (d.queue i).num := by
  unfold updateQueueSel
  dsimp only
  split
  · rename_i h; subst h; exact hf _
  · rfl

theorem u32pred_of_pos (v : Nat) (h0 : 0 < v) (h1 : v < 4294967296) :
    u32pred v = v - 1 := by
  unfold u32pred
  omega

theorem pow2_of_land_pred : ∀ v : Nat, 0 < v → v &&& (v - 1) = 0 →
    isPow2 v := by
  intro v
  induction v using Nat.strong_induction_on with
  | _ v ih =>
    intro hv hl
    rcases Nat.even_or_odd v with he | ho
    · obtain ⟨m, hm⟩ := he
      have hm2 : v = 2 * m := by omega
      have hmpos : 0 < m := by omega
      have hstep : m &&& (m - 1) = 0 := by
        apply Nat.zero_of_testBit_eq_false
        intro i
        have h1 : Nat.testBit (v &&& (v - 1)) (i + 1) = false := by
          rw [hl]; simp
        rw [Nat.testBit_land] at h1
        rw [Nat.testBit_succ, Nat.testBit_succ] at h1
        have hd1 : v / 2 = m := by omega
        have hd2 : (v - 1) / 2 = m - 1 := by omega
        rw [hd1, hd2] at h1
        rw [Nat.testBit_land]
        exact h1
      obtain ⟨k, hk⟩ := ih m (by omega) hmpos hstep
      exact ⟨k + 1, by rw [hm2, hk]; ring⟩
    · obtain ⟨m, hm⟩ := ho
      by_cases h1 : v = 1
      · exact ⟨0, by simp [h1]⟩
      · exfalso
        have hmpos : 0 < m := by omega
        have hex : ∃ i, Nat.testBit m i = true := by
          by_contra hno
          push_neg at hno
          have : m = 0 := Nat.zero_of_testBit_eq_false (by simpa using hno)
          omega
        obtain ⟨i, hi⟩ := hex
        have h2 : Nat.testBit (v &&& (v - 1)) (i + 1) = false := by
          rw [hl]; simp
        rw [Nat.testBit_land, Nat.testBit_succ, Nat.testBit_succ] at h2
        have hd1 : v / 2 = m := by omega
        have hd2 : (v - 1) / 2 = m := by omega
        rw [hd1, hd2, hi] at h2
        simp at h2

theorem wrQueueNum_inv {E : Type} (m : Machine E) (val : Nat)
    (hval : val < 4294967296) (h : QueueNumInv m) :
    QueueNumInv (wrQueueNum m val) := by
  intro i hi
  unfold wrQueueNum
  split
  · rename_i hg
    unfold updateQueueSel
    dsimp only
    split
    · have hland : val &&& (val - 1) = 0 := by
        have hx := hg.1
        rwa [u32pred_of_pos val hg.2 hval] at hx
      exact pow2_of_land_pred val hg.2 hland
    · exact h i hi
  · exact h i hi

theorem wrStatus_inv {E : Type} (m : Machine E) (val : Nat)
    (h : QueueNumInv m) : QueueNumInv (wrStatus m val) := by
  intro i hi
  unfold wrStatus
  split
  · unfold set_irq virtio_reset
    dsimp only
    rw [if_pos hi]
    exact ⟨4, rfl⟩
  · exact h i hi

theorem wrInterruptAck_queue {E : Type} (m : Machine E) (val : Nat) :
    (wrInterruptAck m val).dev.queue = m.dev.queue := by
  unfold wrInterruptAck
  dsimp only
  split <;> rfl

theorem wrQueueSel_queue {E : Type} (m : Machine E) (val : Nat) :
    (wrQueueSel m val).dev.queue = m.dev.queue := by
  unfold wrQueueSel
  split <;> rfl

theorem mmio_write_cases {E : Type} (recv : RecvFn E) (m : Machine E)
    (off val0 sz : Nat) :
    virtio_mmio_write recv m off val0 sz =
        { m with dev := virtio_config_write m.dev (off - 256) (u32 val0) sz } ∨
    virtio_mmio_write recv m off val0 sz = wrDevFeaturesSel m (u32 val0) ∨
    virtio_mmio_write recv m off val0 sz = wrQueueSel m (u32 val0) ∨
    virtio_mmio_write recv m off val0 sz = wrQueueNum m (u32 val0) ∨
    virtio_mmio_write recv m off val0 sz = wrDescLow m (u32 val0) ∨
    virtio_mmio_write recv m off val0 sz = wrDescHigh m (u32 val0) ∨
    virtio_mmio_write recv m off val0 sz = wrAvailLow m (u32 val0) ∨
    virtio_mmio_write recv m off val0 sz = wrAvailHigh m (u32 val0) ∨
    virtio_mmio_write recv m off val0 sz = wrUsedLow m (u32 val0) ∨
    virtio_mmio_write recv m off val0 sz = wrUsedHigh m (u32 val0) ∨
    virtio_mmio_write recv m off val0 sz = wrStatus m (u32 val0) ∨
    virtio_mmio_write recv m off val0 sz = wrQueueReady m (u32 val0) ∨
    virtio_mmio_write recv m off val0 sz = wrQueueNotify recv m (u32 val0) ∨
    virtio_mmio_write recv m off val0 sz = wrInterruptAck m (u32 val0) ∨
    virtio_mmio_write recv m off val0 sz = m := by
  unfold virtio_mmio_write
  by_cases c1 : 256 ≤ off
  · rw [if_pos c1]; tauto
  · rw [if_neg c1]
    by_cases c2 : sz = 2
    rotate_left
    · rw [if_neg c2]; tauto
    rw [if_pos c2]
    by_cases o1 : off = 20
    · rw [if_pos o1]; tauto
    rw [if_neg o1]
    by_cases o2 : off = 48
    · rw [if_pos o2]; tauto
    rw [if_neg o2]
    by_cases o3 : off = 56
    · rw [if_pos o3]; tauto
    rw [if_neg o3]
    by_cases o4 : off = 128
    · rw [if_pos o4]; tauto
    rw [if_neg o4]
    by_cases o5 : off = 132
    · rw [if_pos o5]; tauto
    rw [if_neg o5]
    by_cases o6 : off = 144
    · rw [if_pos o6]; tauto
    rw [if_neg o6]
    by_cases o7 : off = 148
    · rw [if_pos o7]; tauto
    rw [if_neg o7]
    by_cases o8 : off = 160
    · rw [if_pos o8]; tauto
    rw [if_neg o8]
    by_cases o9 : off = 164
    · rw [if_pos o9]; tauto
    rw [if_neg o9]
    by_cases o10 : off = 112
    · rw [if_pos o10]; tauto
    rw [if_neg o10]
    by_cases o11 : off = 68
    · rw [if_pos o11]; tauto
    rw [if_neg o11]
    by_cases o12 : off = 80
    · rw [if_pos o12]; tauto
    rw [if_neg o12]
    by_cases o13 : off = 100
    · rw [if_pos o13]; tauto
    rw [if_neg o13]
    tauto

theorem wrDescLow_num {E : Type} (m : Machine E) (val i : Nat) :
    ((wrDescLow m val).dev.queue i).num = (m.dev.queue i).num := by
  unfold wrDescLow
  dsimp only
  apply updateQueueSel_num
  intro q
  rfl

theorem wrDescHigh_num {E : Type} (m : Machine E) (val i : Nat) :
    ((wrDescHigh m val).dev.queue i).num = (m.dev.queue i).num := by
  unfold wrDescHigh
  dsimp only
  apply updateQueueSel_num
  intro q
  rfl

theorem wrAvailLow_num {E : Type} (m : Machine E) (val i : Nat) :
    ((wrAvailLow m val).dev.queue i).num = (m.dev.queue i).num := by
  unfold wrAvailLow
  dsimp only
  apply updateQueueSel_num
  intro q
  rfl

theorem wrAvailHigh_num {E : Type} (m : Machine E) (val i : Nat) :
    ((wrAvailHigh m val).dev.queue i).num = (m.dev.queue i).num := by
  unfold wrAvailHigh
  dsimp only
  apply updateQueueSel_num
  intro q
  rfl

theorem wrUsedLow_num {E : Type} (m : Machine E) (val i : Nat) :
    ((wrUsedLow m val).dev.queue i).num = (m.dev.queue i).num := by
  unfold wrUsedLow
  dsimp only
  apply updateQueueSel_num
  intro q
  rfl

theorem wrUsedHigh_num {E : Type} (m : Machine E) (val i : Nat) :
    ((wrUsedHigh m val).dev.queue i).num = (m.dev.queue i).num := by
  unfold wrUsedHigh
  dsimp only
  apply updateQueueSel_num
  intro q
  rfl

theorem wrQueueReady_num {E : Type} (m : Machine E) (val i : Nat) :
    ((wrQueueReady m val).dev.queue i).num = (m.dev.queue i).num := by
  unfold wrQueueReady
  dsimp only
  apply updateQueueSel_num
  intro q
  rfl

theorem mmio_write_queuenuminv {E : Type} (recv : RecvFn E)
    (hq : RecvPreservesQueues recv) (m : Machine E) (off val sz : Nat)
    (h : QueueNumInv m) : QueueNumInv (virtio_mmio_write recv m off val sz) := by
  rcases mmio_write_cases recv m off val sz with
    hc|hc|hc|hc|hc|hc|hc|hc|hc|hc|hc|hc|hc|hc|hc <;> rw [hc]
  · intro i hi
    rw [show (({ m with dev := virtio_config_write m.dev (off - 256) (u32 val) sz } : Machine E).dev.queue) = (virtio_config_write m.dev (off - 256) (u32 val) sz).queue from rfl, config_write_queue]
    exact h i hi
  · exact h
  · intro i hi; rw [wrQueueSel_queue]; exact h i hi
  · exact wrQueueNum_inv m (u32 val) (Nat.mod_lt _ (by norm_num)) h
  · intro i hi; rw [wrDescLow_num]; exact h i hi
  · intro i hi; rw [wrDescHigh_num]; exact h i hi
  · intro i hi; rw [wrAvailLow_num]; exact h i hi
  · intro i hi; rw [wrAvailHigh_num]; exact h i hi
  · intro i hi; rw [wrUsedLow_num]; exact h i hi
  · intro i hi; rw [wrUsedHigh_num]; exact h i hi
  · exact wrStatus_inv m (u32 val) h
  · intro i hi; rw [wrQueueReady_num]; exact h i hi
  · intro i hi
    unfold wrQueueNotify
    split
    · rw [queue_notify_queue_num recv hq]; exact h i hi
    · exact h i hi
  · intro i hi; rw [wrInterruptAck_queue]; exact h i hi
  · exact h

theorem consume_desc_irqinv {E : Type} (m : Machine E) (qi di l : Nat) :
    IrqInv (virtio_consume_desc m qi di l) := by
  unfold IrqInv virtio_consume_desc
  simp [lor_one_ne_zero]

theorem notify_loop_irqinv {E : Type} (recv : RecvFn E)
    (hr : RecvPreservesIrqInv recv) (qi : Nat) :
    ∀ fuel (m : Machine E), IrqInv m → IrqInv (notify_loop recv qi fuel m) := by
  intro fuel
  induction fuel with
  | zero => intro m h; exact h
  | succ f ih =>
    intro m h
    unfold notify_loop
    dsimp only
    cases hgd : get_desc_rw_size m.mem (m.dev.queue qi).desc_addr
      (read16 m.mem (w64 ((m.dev.queue qi).avail_addr + 4 +
        (Nat.land (m.dev.queue qi).last_avail_idx (u32pred (m.dev.queue qi).num)) * 2))) with
    | none => exact ih _ h
    | some p =>
      cases p with
      | mk rs ws =>
        dsimp only
        split
        · exact hr m qi _ rs ws h
        · exact ih _ (hr m qi _ rs ws h)

theorem queue_notify_irqinv {E : Type} (recv : RecvFn E)
    (hr : RecvPreservesIrqInv recv) (m : Machine E) (qi : Nat)
    (h : IrqInv m) : IrqInv (queue_notify recv m qi) := by
  unfold queue_notify
  dsimp only
  split
  · exact h
  · exact notify_loop_irqinv recv hr qi _ m h

theorem wrStatus_irqinv {E : Type} (m : Machine E) (val : Nat)
    (h : IrqInv m) : IrqInv (wrStatus m val) := by
  unfold wrStatus
  split
  · unfold IrqInv set_irq virtio_reset
    simp
  · exact h

theorem wrInterruptAck_irqinv {E : Type} (m : Machine E) (val : Nat)
    (h : IrqInv m) : IrqInv (wrInterruptAck m val) := by
  unfold wrInterruptAck
  dsimp only
  split
  · rename_i hz
    unfold IrqInv set_irq
    dsimp only
    rw [hz]
    simp
  · rename_i hnz
    unfold IrqInv at h ⊢
    dsimp only
    rw [if_neg hnz]
    by_cases hint : m.dev.int_status = 0
    · exfalso
      apply hnz
      rw [hint]
      exact Nat.zero_and _
    · rw [if_neg hint] at h
      exact h

theorem config_write_int_status (d : DeviceRegs) (off v s : Nat) :
    (virtio_config_write d off v s).int_status = d.int_status := by
  unfold virtio_config_write
  repeat' split
  all_goals rfl

theorem mmio_write_irqinv {E : Type} (recv : RecvFn E)
    (hr : RecvPreservesIrqInv recv) (m : Machine E) (off val sz : Nat)
    (h : IrqInv m) : IrqInv (virtio_mmio_write recv m off val sz) := by
  rcases mmio_write_cases recv m off val sz with
    hc|hc|hc|hc|hc|hc|hc|hc|hc|hc|hc|hc|hc|hc|hc <;> rw [hc]
  · unfold IrqInv at h ⊢
    dsimp only
    rw [config_write_int_status]
    exact h
  · exact h
  · unfold wrQueueSel
    split
    · exact h
    · exact h
  · unfold wrQueueNum
    split
    · exact h
    · exact h
  · exact h
  · exact h
  · exact h
  · exact h
  · exact h
  · exact h
  · exact wrStatus_irqinv m (u32 val) h
  · exact h
  · unfold wrQueueNotify
    split
    · exact queue_notify_irqinv recv hr m (u32 val) h
    · exact h
  · exact wrInterruptAck_irqinv m (u32 val) h
  · exact h

theorem reach_queuenuminv {E : Type} (recv : RecvFn E)
    (hq : RecvPreservesQueues recv) (m0 m : Machine E)
    (h0 : QueueNumInv m0) (hr : Reach recv m0 m) : QueueNumInv m := by
  induction hr with
  | refl => exact h0
  | mmio off val sz _ ih => exact mmio_write_queuenuminv recv hq _ off val sz ih
  | guest mem _ ih => exact ih

theorem reach_irqinv {E : Type} (recv : RecvFn E)
    (hri : RecvPreservesIrqInv recv) (m0 m : Machine E)
    (h0 : IrqInv m0) (hr : Reach recv m0 m) : IrqInv m := by
  induction hr with
  | refl => exact h0
  | mmio off val sz _ ih => exact mmio_write_irqinv recv hri _ off val sz ih
  | guest mem _ ih => exact ih

theorem block_req_end_queue (m : BlockMachine) (ret : Int) :
    (virtio_block_req_end m ret).dev.queue = m.dev.queue := by
  unfold virtio_block_req_end
  dsimp only
  split
  · rfl
  · split
    · rfl
    · rfl

theorem block_req_end_irqinv (m : BlockMachine) (ret : Int) (h : IrqInv m) :
    IrqInv (virtio_block_req_end m ret) := by
  unfold virtio_block_req_end
  dsimp only
  split
  · exact consume_desc_irqinv _ _ _ _
  · split
    · exact consume_desc_irqinv _ _ _ _
    · exact h

theorem blk_recv_preserves_queues :
    RecvPreservesQueues virtio_block_recv_request := by
  intro mm qi di rs ws
  unfold virtio_block_recv_request
  dsimp only
  split
  · rfl
  · cases hmc : memcpy_from_queue mm.mem (mm.dev.queue qi).desc_addr di 0 16 with
    | mk bs ok =>
      cases ok with
      | false => rfl
      | true =>
        dsimp only
        split
        · split
          · rfl
          · rw [block_req_end_queue]
        · split
          · split
            · rfl
            · rw [block_req_end_queue]
          · rfl

theorem blk_recv_preserves_irqinv :
    RecvPreservesIrqInv virtio_block_recv_request := by
  intro mm qi di rs ws h
  unfold virtio_block_recv_request
  dsimp only
  split
  · exact h
  · cases hmc : memcpy_from_queue mm.mem (mm.dev.queue qi).desc_addr di 0 16 with
    | mk bs ok =>
      cases ok with
      | false => exact h
      | true =>
        dsimp only
        split
        · split
          · exact h
          · exact block_req_end_irqinv _ _ h
        · split
          · split
            · exact h
            · exact block_req_end_irqinv _ _ h
          · exact h

/-! ## Claim theorems -/

/-- C3: a 4-byte MMIO write of value 0 to offset 0x070 (STATUS) resets
every one of the 8 queues to ready 0, num 16, zero ring addresses and
last_avail_idx 0, clears status, int_status, queue_sel and
device_features_sel, and drives the interrupt line to level 0 - for any
device and any prior state. -/
theorem c3_status_zero_resets {E : Type} (recv : RecvFn E) (m : Machine E) :
    (virtio_mmio_write recv m 112 0 2).dev.status = 0 ∧
    (virtio_mmio_write recv m 112 0 2).dev.int_status = 0 ∧
    (virtio_mmio_write recv m 112 0 2).dev.queue_sel = 0 ∧
    (virtio_mmio_write recv m 112 0 2).dev.device_features_sel = 0 ∧
    (virtio_mmio_write recv m 112 0 2).irq_level = 0 ∧
    ∀ i, i < 8 →
      ((virtio_mmio_write recv m 112 0 2).dev.queue i).ready = 0 ∧
      ((virtio_mmio_write recv m 112 0 2).dev.queue i).num = 16 ∧
      ((virtio_mmio_write recv m 112 0 2).dev.queue i).desc_addr = 0 ∧
      ((virtio_mmio_write recv m 112 0 2).dev.queue i).avail_addr = 0 ∧
      ((virtio_mmio_write recv m 112 0 2).dev.queue i).used_addr = 0 ∧
      ((virtio_mmio_write recv m 112 0 2).dev.queue i).last_avail_idx = 0 := by
  have hw : virtio_mmio_write recv m 112 0 2 =
      set_irq { m with dev := virtio_reset { m.dev with status := 0 } } 0 := by
    simp [virtio_mmio_write, wrStatus, u32]
  rw [hw]
  refine ⟨rfl, rfl, rfl, rfl, rfl, ?_⟩
  intro i hi
  have h8 : i < MAX_QUEUE := by simpa [MAX_QUEUE] using hi
  unfold set_irq virtio_reset
  dsimp only
  rw [if_pos h8]
  exact ⟨rfl, rfl, rfl, rfl, rfl, rfl⟩

/-- C3 witness: the reset write applied to the configured scene-A block
machine. -/
theorem c3_status_zero_resets_witness :
    (virtio_mmio_write virtio_block_recv_request sceneFlushCfg 112 0 2).dev.int_status = 0 ∧
    ((virtio_mmio_write virtio_block_recv_request sceneFlushCfg 112 0 2).dev.queue 0).num = 16 := by
  refine ⟨(c3_status_zero_resets virtio_block_recv_request sceneFlushCfg).2.1, ?_⟩
  exact ((c3_status_zero_resets virtio_block_recv_request sceneFlushCfg).2.2.2.2.2 0 (by norm_num)).2.1

/-- C4 counterexample: from reset, a single 4-byte QUEUE_NUM write of 32
(a power of two above MAX_QUEUE_NUM) is accepted and leaves num = 32 > 16,
in a state reachable by MMIO writes. -/
theorem c4_counterexample :
    Reach virtio_block_recv_request (virtio_block_init bfRW zeroMem)
      (blk_mmio_write (virtio_block_init bfRW zeroMem) 56 32 2) ∧
    ((blk_mmio_write (virtio_block_init bfRW zeroMem) 56 32 2).dev.queue 0).num = 32 ∧
    ¬ ((blk_mmio_write (virtio_block_init bfRW zeroMem) 56 32 2).dev.queue 0).num ≤ 16 := by
  refine ⟨Reach.mmio 56 32 2 Reach.refl, ?_, ?_⟩
  · decide
  · decide

/-- C4 as amended: in every state of the block device reachable from
reset by MMIO writes and guest stores, each real queue num is a non-zero
power of two (but not necessarily at most 16); and a QUEUE_NUM write
takes effect exactly when the written value passes the non-zero
power-of-two test. -/
theorem c4_num_power_of_two :
    (∀ (bf : BlockDeviceFile) (mem : Mem) (m : BlockMachine),
      Reach virtio_block_recv_request (virtio_block_init bf mem) m →
      ∀ i, i < 8 → isPow2 ((m.dev.queue i).num)) ∧
    (∀ (E : Type) (m : Machine E) (val : Nat),
      (Nat.land val (u32pred val) = 0 ∧ 0 < val → wrQueueNum m val =
        { m with dev := updateQueueSel m.dev (fun q => { q with num := val }) }) ∧
      (¬ (Nat.land val (u32pred val) = 0 ∧ 0 < val) → wrQueueNum m val = m)) := by
  constructor
  · intro bf mem m hr i hi
    have h0 : QueueNumInv (virtio_block_init bf mem) := by
      intro j hj
      unfold virtio_block_init init_regs virtio_reset
      dsimp only
      rw [if_pos hj]
      exact ⟨4, rfl⟩
    have := reach_queuenuminv virtio_block_recv_request
      blk_recv_preserves_queues _ m h0 hr
    exact this i (by simpa [MAX_QUEUE] using hi)
  · intro E m val
    constructor
    · intro hg
      unfold wrQueueNum
      rw [if_pos hg]
    · intro hg
      unfold wrQueueNum
      rw [if_neg hg]

/-- C4 witness: the invariant instantiated at the freshly reset device,
and both behaviours of the QUEUE_NUM write at concrete values. -/
theorem c4_num_power_of_two_witness :
    isPow2 (((virtio_block_init bfRW zeroMem).dev.queue 0).num) ∧
    wrQueueNum (virtio_block_init bfRW zeroMem) 3 = virtio_block_init bfRW zeroMem := by
  constructor
  · exact c4_num_power_of_two.1 bfRW zeroMem _ Reach.refl 0 (by norm_num)
  · exact (c4_num_power_of_two.2 BlockExt (virtio_block_init bfRW zeroMem) 3).2 (by decide)

theorem read16_lt (m : Mem) (a : Nat) : read16 m a < 65536 := by
  unfold read16 readByte
  have h1 : m a % 256 < 256 := Nat.mod_lt _ (by norm_num)
  have h2 : m (a + 1) % 256 < 256 := Nat.mod_lt _ (by norm_num)
  omega

/-- C6: in every reachable state the interrupt line level is 1 exactly
when int_status is non-zero (for any device whose recv preserves the
invariant, as both devices here do); consuming a descriptor sets
int_status bit 0 and raises the line; INTERRUPT_ACK clears the written
bits and drops the line exactly when int_status becomes 0; a STATUS
write of 0 clears int_status and drops the line. -/
theorem c6_irq_level_matches_int_status :
    (∀ (E : Type) (recv : RecvFn E), RecvPreservesIrqInv recv →
      ∀ (m0 m : Machine E), IrqInv m0 → Reach recv m0 m →
        ((m.irq_level = 1 ↔ m.dev.int_status ≠ 0) ∧
         (m.irq_level = 0 ↔ m.dev.int_status = 0))) ∧
    (∀ (E : Type) (m : Machine E) (qi di l : Nat),
      (virtio_consume_desc m qi di l).dev.int_status =
        Nat.lor m.dev.int_status 1 ∧
      (virtio_consume_desc m qi di l).irq_level = 1) ∧
    (∀ (E : Type) (m : Machine E) (val : Nat),
      (wrInterruptAck m val).dev.int_status =
        Nat.land m.dev.int_status (4294967295 - val) ∧
      (wrInterruptAck m val).irq_level =
        (if Nat.land m.dev.int_status (4294967295 - val) = 0 then 0
         else m.irq_level)) ∧
    (∀ (E : Type) (m : Machine E),
      (wrStatus m 0).dev.int_status = 0 ∧ (wrStatus m 0).irq_level = 0) := by
  refine ⟨?_, ?_, ?_, ?_⟩
  · intro E recv hrp m0 m h0 hr
    have hinv := reach_irqinv recv hrp m0 m h0 hr
    unfold IrqInv at hinv
    by_cases hz : m.dev.int_status = 0
    · rw [if_pos hz] at hinv
      constructor
      · constructor
        · intro h1; omega
        · intro h1; exact absurd hz h1
      · constructor
        · intro _; exact hz
        · intro _; exact hinv
    · rw [if_neg hz] at hinv
      constructor
      · constructor
        · intro _; exact hz
        · intro _; exact hinv
      · constructor
        · intro h1; omega
        · intro h1; exact absurd h1 hz
  · intro E m qi di l
    exact ⟨rfl, rfl⟩
  · intro E m val
    unfold wrInterruptAck
    dsimp only
    split
    · exact ⟨rfl, rfl⟩
    · exact ⟨rfl, rfl⟩
  · intro E m
    unfold wrStatus
    rw [if_pos rfl]
    exact ⟨rfl, rfl⟩

/-- C6 witness: the invariant applied to the freshly initialised block
device (reachable trivially), where the line is low and int_status 0. -/
theorem c6_irq_level_witness :
    ((virtio_block_init bfRW zeroMem).irq_level = 0 ↔
      (virtio_block_init bfRW zeroMem).dev.int_status = 0) ∧
    (virtio_block_init bfRW zeroMem).irq_level = 0 := by
  constructor
  · have h0 : IrqInv (virtio_block_init bfRW zeroMem) := by
      unfold IrqInv
      rfl
    exact (c6_irq_level_matches_int_status.1 BlockExt virtio_block_recv_request
      blk_recv_preserves_irqinv _ _ h0 Reach.refl).2
  · rfl

theorem u16_add_left (a b : Nat) : u16 (u16 a + b) = u16 (a + b) := by
  unfold u16
  omega

theorem bump_last_avail_last {E : Type} (m : Machine E) (qi : Nat) :
    ((bump_last_avail m qi).dev.queue qi).last_avail_idx =
      u16 ((m.dev.queue qi).last_avail_idx + 1) := by
  unfold bump_last_avail
  dsimp only
  rw [if_pos rfl]

theorem notify_loop_drains {E : Type} (recv : RecvFn E) (qi : Nat)
    (hpres : ∀ mm qi2 di rs ws, ((recv mm qi2 di rs ws).1).dev.queue = mm.dev.queue)
    (hnn : ∀ mm qi2 di rs ws, 0 ≤ (recv mm qi2 di rs ws).2) :
    ∀ fuel (m : Machine E), (m.dev.queue qi).last_avail_idx < 65536 →
      ((notify_loop recv qi fuel m).dev.queue qi).last_avail_idx =
        u16 ((m.dev.queue qi).last_avail_idx + fuel) := by
  intro fuel
  induction fuel with
  | zero =>
    intro m hlast
    unfold notify_loop u16
    omega
  | succ f ih =>
    intro m hlast
    unfold notify_loop
    dsimp only
    generalize hdi : read16 m.mem (w64 ((m.dev.queue qi).avail_addr + 4 +
      (Nat.land (m.dev.queue qi).last_avail_idx (u32pred (m.dev.queue qi).num)) * 2)) = di
    cases hgd : get_desc_rw_size m.mem (m.dev.queue qi).desc_addr di with
    | none =>
      have hb : ((bump_last_avail m qi).dev.queue qi).last_avail_idx < 65536 := by
        rw [bump_last_avail_last]
        exact Nat.mod_lt _ (by norm_num)
      rw [ih _ hb, bump_last_avail_last, u16_add_left]
      congr 1
      omega
    | some p =>
      cases p with
      | mk rs ws =>
        dsimp only
        have h0 := hnn m qi di rs ws
        rw [if_neg (by omega)]
        have hq := hpres m qi di rs ws
        have hb : ((bump_last_avail (recv m qi di rs ws).1 qi).dev.queue qi).last_avail_idx < 65536 := by
          rw [bump_last_avail_last]
          exact Nat.mod_lt _ (by norm_num)
        rw [ih _ hb, bump_last_avail_last]
        rw [congrArg (fun q => (q qi).last_avail_idx) hq]
        rw [u16_add_left]
        congr 1
        omega

/-- C5: the dispatch loop of queue_notify.  With manual_recv set, notify
returns the machine unchanged for every recv (so recv is never invoked
and no ring state moves).  At a pending entry whose chain measures
successfully, a negative recv return makes the loop stop, returning the
recv result without advancing; a non-negative return continues the loop
on the machine with last_avail_idx advanced by exactly one.  When recv
always returns non-negative and leaves the queues alone, the drain ends
with last_avail_idx equal to the available index observed at entry. -/
theorem c5_dispatch_loop :
    (∀ (E : Type) (recv recv2 : RecvFn E) (m : Machine E) (qi : Nat),
      (m.dev.queue qi).manual_recv = true →
      queue_notify recv m qi = m ∧
      queue_notify recv m qi = queue_notify recv2 m qi) ∧
    (∀ (E : Type) (recv : RecvFn E) (qi fuel : Nat) (m : Machine E)
        (di rs ws : Nat) (m2 : Machine E) (r : Int),
      read16 m.mem (w64 ((m.dev.queue qi).avail_addr + 4 +
        (Nat.land (m.dev.queue qi).last_avail_idx
          (u32pred (m.dev.queue qi).num)) * 2)) = di →
      get_desc_rw_size m.mem (m.dev.queue qi).desc_addr di = some (rs, ws) →
      recv m qi di rs ws = (m2, r) →
      (r < 0 → notify_loop recv qi (fuel + 1) m = m2) ∧
      (0 ≤ r → notify_loop recv qi (fuel + 1) m =
        notify_loop recv qi fuel (bump_last_avail m2 qi))) ∧
    (∀ (E : Type) (recv : RecvFn E) (qi : Nat) (m : Machine E),
      (∀ mm qi2 di rs ws, ((recv mm qi2 di rs ws).1).dev.queue = mm.dev.queue) →
      (∀ mm qi2 di rs ws, 0 ≤ (recv mm qi2 di rs ws).2) →
      (m.dev.queue qi).manual_recv = false →
      (m.dev.queue qi).last_avail_idx < 65536 →
      ((queue_notify recv m qi).dev.queue qi).last_avail_idx =
        read16 m.mem (w64 ((m.dev.queue qi).avail_addr + 2))) := by
  refine ⟨?_, ?_, ?_⟩
  · intro E recv recv2 m qi hman
    unfold queue_notify
    dsimp only
    rw [if_pos hman, if_pos hman]
    exact ⟨rfl, rfl⟩
  · intro E recv qi fuel m di rs ws m2 r hdi hgd hrecv
    constructor
    · intro hneg
      conv_lhs => unfold notify_loop
      dsimp only
      rw [hdi, hgd]
      dsimp only
      rw [hrecv]
      dsimp only
      rw [if_pos hneg]
    · intro hpos
      conv_lhs => unfold notify_loop
      dsimp only
      rw [hdi, hgd]
      dsimp only
      rw [hrecv]
      dsimp only
      rw [if_neg (by omega : ¬ r < 0)]
  · intro E recv qi m hpres hnn hman hlast
    unfold queue_notify
    dsimp only
    rw [if_neg (by rw [hman]; exact Bool.false_ne_true)]
    rw [notify_loop_drains recv qi hpres hnn _ _ hlast]
    have hav := read16_lt m.mem (w64 ((m.dev.queue qi).avail_addr + 2))
    unfold u16
    omega

/-- C5 witness: manual_recv short-circuit, the two loop behaviours at a
concrete pending FLUSH entry (break with the busy device, advance with
the idle one), and a full drain with the trivial recv. -/
theorem c5_dispatch_loop_witness :
    queue_notify virtio_block_recv_request sceneManual 0 = sceneManual ∧
    notify_loop virtio_block_recv_request 0 1 sceneBusy = sceneBusy ∧
    notify_loop virtio_block_recv_request 0 1 sceneFlushCfg =
      notify_loop virtio_block_recv_request 0 0
        (bump_last_avail (virtio_block_recv_request sceneFlushCfg 0 0 16 0).1 0) ∧
    ((queue_notify (recvNop (E := BlockExt)) sceneFlushCfg 0).dev.queue 0).last_avail_idx = 1 := by
  refine ⟨?_, ?_, ?_, ?_⟩
  · exact (c5_dispatch_loop.1 BlockExt virtio_block_recv_request
      virtio_block_recv_request sceneManual 0 (by decide)).1
  · exact ((c5_dispatch_loop.2.1 BlockExt virtio_block_recv_request 0 0 sceneBusy
      0 16 0 sceneBusy (-1) (by decide) (by decide) rfl).1 (by decide))
  · exact ((c5_dispatch_loop.2.1 BlockExt virtio_block_recv_request 0 0 sceneFlushCfg
      0 16 0 (virtio_block_recv_request sceneFlushCfg 0 0 16 0).1
      (virtio_block_recv_request sceneFlushCfg 0 0 16 0).2
      (by decide) (by decide) rfl).2 (by decide))
  · have h := c5_dispatch_loop.2.2 BlockExt recvNop 0 sceneFlushCfg
      (fun _ _ _ _ _ => rfl) (fun _ _ _ _ _ => le_refl 0) (by decide) (by decide)
    rw [h]
    decide

theorem snapWrite_lt : ∀ (n : Nat) (tbl : Nat → Option (List Nat))
    (s : Nat) (buf : List Nat) (s2 : Nat), s2 < s →
    snapshotWrite tbl s buf n s2 = tbl s2 := by
  intro n
  induction n with
  | zero => intro tbl s buf s2 _; rfl
  | succ k ih =>
    intro tbl s buf s2 hlt
    unfold snapshotWrite
    rw [ih _ (s + 1) _ s2 (by omega)]
    rw [if_neg (by omega)]

theorem snapWrite_ge : ∀ (n : Nat) (tbl : Nat → Option (List Nat))
    (s : Nat) (buf : List Nat) (s2 : Nat), s + n ≤ s2 →
    snapshotWrite tbl s buf n s2 = tbl s2 := by
  intro n
  induction n with
  | zero => intro tbl s buf s2 _; rfl
  | succ k ih =>
    intro tbl s buf s2 hge
    unfold snapshotWrite
    rw [ih _ (s + 1) _ s2 (by omega)]
    rw [if_neg (by omega)]

theorem snapWrite_in : ∀ (n i : Nat) (tbl : Nat → Option (List Nat))
    (s : Nat) (buf : List Nat), i < n →
    snapshotWrite tbl s buf n (s + i) =
      some ((buf.drop (512 * i)).take 512) := by
  intro n
  induction n with
  | zero => intro i tbl s buf h; omega
  | succ k ih =>
    intro i tbl s buf hi
    unfold snapshotWrite
    cases i with
    | zero =>
      rw [snapWrite_lt k _ (s + 1) _ (s + 0) (by omega)]
      rw [if_pos (by omega)]
      simp [SECTOR_SIZE]
    | succ j =>
      have harith : s + (j + 1) = (s + 1) + j := by omega
      rw [harith, ih j _ (s + 1) _ (by omega)]
      congr 1
      rw [List.drop_drop]
      congr 2
      unfold SECTOR_SIZE
      omega

theorem snapRead_eq : ∀ (n s : Nat) (bf2 : BlockDeviceFile) (buf : List Nat),
    buf.length = 512 * n →
    (∀ i, i < n → bf2.sector_table (s + i) =
      some ((buf.drop (512 * i)).take 512)) →
    snapshotRead bf2 s n = buf := by
  intro n
  induction n with
  | zero =>
    intro s bf2 buf hlen _
    unfold snapshotRead
    have : buf = [] := List.eq_nil_of_length_eq_zero (by omega)
    rw [this]
  | succ k ih =>
    intro s bf2 buf hlen hfacts
    unfold snapshotRead
    have h0 := hfacts 0 (by omega)
    rw [show s + 0 = s from rfl] at h0
    rw [h0]
    dsimp only
    have hrest : snapshotRead bf2 (s + 1) k = buf.drop 512 := by
      apply ih (s + 1) bf2 (buf.drop 512)
      · rw [List.length_drop]; omega
      · intro i hik
        have := hfacts (i + 1) (by omega)
        rw [show s + (i + 1) = (s + 1) + i by omega] at this
        rw [this]
        congr 1
        rw [List.drop_drop]
        congr 2
        omega
    rw [hrest]
    simp

/-- C7: in snapshot mode a write of n sectors inside the image bounds
succeeds, never touches the base file, creates 512-byte overlay entries
for exactly the written sectors, and a subsequent read of those sectors
returns the written bytes; a read of a never-written sector falls through
to the base file; a write crossing nb_sectors fails with -1 and changes
nothing. -/
theorem c7_snapshot_overlay (bf : BlockDeviceFile) (sector n : Nat)
    (buf : List Nat) (hmode : bf.mode = BF_MODE_SNAPSHOT)
    (hf : bf.f = true) (hlen : buf.length = 512 * n)
    (hbound : sector + n ≤ bf.nb_sectors) :
    (bf_write_async bf sector buf n).2 = 0 ∧
    (bf_write_async bf sector buf n).1.base = bf.base ∧
    (bf_write_async bf sector buf n).1.mode = bf.mode ∧
    (bf_write_async bf sector buf n).1.nb_sectors = bf.nb_sectors ∧
    bf_read_async (bf_write_async bf sector buf n).1 sector n = (0, buf) ∧
    (∀ i, i < n → (bf_write_async bf sector buf n).1.sector_table (sector + i) =
      some ((buf.drop (512 * i)).take 512) ∧
      ((buf.drop (512 * i)).take 512).length = 512) ∧
    (∀ s2, s2 < sector ∨ sector + n ≤ s2 →
      (bf_write_async bf sector buf n).1.sector_table s2 = bf.sector_table s2) ∧
    (∀ s2, (bf_write_async bf sector buf n).1.sector_table s2 = none →
      bf_read_async (bf_write_async bf sector buf n).1 s2 1 =
        (0, baseSector bf s2)) ∧
    (∀ sector2 buf2 n2, bf.nb_sectors < sector2 + n2 →
      bf_write_async bf sector2 buf2 n2 = (bf, -1)) := by
  have hw : bf_write_async bf sector buf n =
      ({ bf with sector_table := snapshotWrite bf.sector_table sector buf n }, 0) := by
    unfold bf_write_async
    rw [hmode]
    rw [if_neg (by omega)]
  rw [hw]
  dsimp only
  refine ⟨rfl, rfl, rfl, rfl, ?_, ?_, ?_, ?_, ?_⟩
  · unfold bf_read_async
    rw [show ({ bf with sector_table := snapshotWrite bf.sector_table sector buf n } : BlockDeviceFile).f = bf.f from rfl, hf]
    rw [show ({ bf with sector_table := snapshotWrite bf.sector_table sector buf n } : BlockDeviceFile).mode = bf.mode from rfl, hmode]
    dsimp only
    rw [if_neg (by simp)]
    rw [if_pos rfl]
    have hread := snapRead_eq n sector
      { bf with sector_table := snapshotWrite bf.sector_table sector buf n }
      buf hlen (fun i hi => snapWrite_in n i bf.sector_table sector buf hi)
    rw [hf, hmode] at hread
    rw [hread]
  · intro i hi
    refine ⟨snapWrite_in n i bf.sector_table sector buf hi, ?_⟩
    rw [List.length_take, List.length_drop]
    omega
  · intro s2 hs2
    cases hs2 with
    | inl h => exact snapWrite_lt n bf.sector_table sector buf s2 h
    | inr h => exact snapWrite_ge n bf.sector_table sector buf s2 h
  · intro s2 hnone
    unfold bf_read_async
    rw [show ({ bf with sector_table := snapshotWrite bf.sector_table sector buf n } : BlockDeviceFile).f = bf.f from rfl, hf]
    rw [show ({ bf with sector_table := snapshotWrite bf.sector_table sector buf n } : BlockDeviceFile).mode = bf.mode from rfl, hmode]
    dsimp only
    rw [if_neg (by simp)]
    rw [if_pos rfl]
    unfold snapshotRead
    dsimp only
    rw [hnone]
    dsimp only
    unfold snapshotRead
    simp [baseSector]
  · intro sector2 buf2 n2 hover
    unfold bf_write_async
    rw [hmode]
    rw [if_pos (by omega)]

/-- C7 witness: one sector of sevens written to a fresh snapshot file and
read back. -/
theorem c7_snapshot_overlay_witness :
    (bf_write_async bfSnap 2 (List.replicate 512 7) 1).2 = 0 ∧
    bf_read_async (bf_write_async bfSnap 2 (List.replicate 512 7) 1).1 2 1 =
      (0, List.replicate 512 7) ∧
    (bf_write_async bfSnap 2 (List.replicate 512 7) 1).1.base = bfSnap.base := by
  have h := c7_snapshot_overlay bfSnap 2 1 (List.replicate 512 7)
    rfl rfl (by norm_num) (by norm_num [bfSnap])
  exact ⟨h.1, h.2.2.2.2.1, h.2.1⟩

set_option maxHeartbeats 8000000 in
/-- C8: on a read-only backing store every write_async call fails with -1
(for all sectors, buffers and counts); and in the concrete OUT scene on a
read-only image, the notify leaves the IOERR status byte 1 at offset 0 of
the writable part of the chain, exactly one used-ring entry {id 0, len 1},
a raised interrupt line, and one consumed available entry. -/
theorem c8_readonly_out_ioerr :
    (∀ (bf : BlockDeviceFile) (sector_num : Nat) (buf : List Nat) (n : Nat),
      bf.mode = BF_MODE_RO → bf_write_async bf sector_num buf n = (bf, -1)) ∧
    readByte sceneOutRoAfter.mem 17500 = VIRTIO_BLK_S_IOERR ∧
    read16 sceneOutRoAfter.mem 12290 = 1 ∧
    read32 sceneOutRoAfter.mem 12292 = 0 ∧
    read32 sceneOutRoAfter.mem 12296 = 1 ∧
    sceneOutRoAfter.irq_level = 1 ∧
    (sceneOutRoAfter.dev.queue 0).last_avail_idx = 1 := by
  constructor
  · intro bf sector_num buf n hmode
    unfold bf_write_async
    rw [hmode]
  · exact ⟨by decide, by decide, by decide, by decide, by decide, by decide⟩

/-- C8 witness: the read-only failure at a concrete call. -/
theorem c8_readonly_out_ioerr_witness :
    bf_write_async bfRO 3 [] 1 = (bfRO, -1) :=
  c8_readonly_out_ioerr.1 bfRO 3 [] 1 rfl

theorem readByte_writeByte_same (m : Mem) (a v : Nat) :
    readByte (writeByte m a v) a = v % 256 := by
  unfold readByte writeByte
  rw [if_pos rfl]
  omega

theorem readByte_writeByte_ne (m : Mem) (b v a : Nat) (h : a ≠ b) :
    readByte (writeByte m b v) a = readByte m a := by
  unfold readByte writeByte
  rw [if_neg h]

theorem readByte_write16_ne (m : Mem) (b v a : Nat)
    (h : a ≠ b ∧ a ≠ b + 1) :
    readByte (write16 m b v) a = readByte m a := by
  unfold write16
  rw [readByte_writeByte_ne _ _ _ _ h.2, readByte_writeByte_ne _ _ _ _ h.1]

theorem readByte_write32_ne (m : Mem) (b v a : Nat)
    (h : a < b ∨ b + 4 ≤ a) :
    readByte (write32 m b v) a = readByte m a := by
  unfold write32
  rw [readByte_writeByte_ne _ _ _ _ (by omega), readByte_writeByte_ne _ _ _ _ (by omega),
    readByte_writeByte_ne _ _ _ _ (by omega), readByte_writeByte_ne _ _ _ _ (by omega)]

theorem read16_write16_same (m : Mem) (a v : Nat) :
    read16 (write16 m a v) a = v % 65536 := by
  unfold read16 write16
  rw [readByte_writeByte_same]
  rw [readByte_writeByte_ne _ _ _ _ (by omega : a ≠ a + 1)]
  rw [readByte_writeByte_same]
  omega

theorem read16_write32_ne (m : Mem) (b v a : Nat)
    (h : a + 2 ≤ b ∨ b + 4 ≤ a) :
    read16 (write32 m b v) a = read16 m a := by
  unfold read16
  rw [readByte_write32_ne _ _ _ _ (by omega), readByte_write32_ne _ _ _ _ (by omega)]

theorem read32_write32_same (m : Mem) (a v : Nat) :
    read32 (write32 m a v) a = v % 4294967296 := by
  unfold read32 write32
  rw [readByte_writeByte_ne _ _ _ _ (by omega : a ≠ a + 3),
    readByte_writeByte_ne _ _ _ _ (by omega : a ≠ a + 2),
    readByte_writeByte_ne _ _ _ _ (by omega : a ≠ a + 1),
    readByte_writeByte_same]
  rw [readByte_writeByte_ne _ _ _ _ (by omega : a + 1 ≠ a + 3),
    readByte_writeByte_ne _ _ _ _ (by omega : a + 1 ≠ a + 2),
    readByte_writeByte_same]
  rw [readByte_writeByte_ne _ _ _ _ (by omega : a + 2 ≠ a + 3),
    readByte_writeByte_same]
  rw [readByte_writeByte_same]
  omega

theorem read32_write32_ne (m : Mem) (b v a : Nat)
    (h : a + 4 ≤ b ∨ b + 4 ≤ a) :
    read32 (write32 m b v) a = read32 m a := by
  unfold read32
  rw [readByte_write32_ne _ _ _ _ (by omega), readByte_write32_ne _ _ _ _ (by omega),
    readByte_write32_ne _ _ _ _ (by omega), readByte_write32_ne _ _ _ _ (by omega)]

theorem bf_read_async_le_zero (bf : BlockDeviceFile) (s n : Nat) :
    (bf_read_async bf s n).1 ≤ 0 := by
  unfold bf_read_async
  split
  · show (-1 : Int) ≤ 0
    decide
  · split
    · show (0 : Int) ≤ 0
      decide
    · show (0 : Int) ≤ 0
      decide

theorem bf_write_async_le_zero (bf : BlockDeviceFile) (s : Nat)
    (buf : List Nat) (n : Nat) : (bf_write_async bf s buf n).2 ≤ 0 := by
  unfold bf_write_async
  split
  · show (-1 : Int) ≤ 0
    decide
  · show (0 : Int) ≤ 0
    decide
  · split
    · show (-1 : Int) ≤ 0
      decide
    · show (0 : Int) ≤ 0
      decide

theorem consume_desc_posts_one_entry {E : Type} (m : Machine E)
    (qi di desc_len : Nat)
    (hb : (m.dev.queue qi).used_addr + 4 + 8 * 65536 < 18446744073709551616) :
    read16 (virtio_consume_desc m qi di desc_len).mem
        ((m.dev.queue qi).used_addr + 2) =
      u16 (read16 m.mem ((m.dev.queue qi).used_addr + 2) + 1) ∧
    read32 (virtio_consume_desc m qi di desc_len).mem
        ((m.dev.queue qi).used_addr + 4 +
          Nat.land (read16 m.mem ((m.dev.queue qi).used_addr + 2))
            (u32pred (m.dev.queue qi).num) * 8) = di % 4294967296 ∧
    read32 (virtio_consume_desc m qi di desc_len).mem
        ((m.dev.queue qi).used_addr + 4 +
          Nat.land (read16 m.mem ((m.dev.queue qi).used_addr + 2))
            (u32pred (m.dev.queue qi).num) * 8 + 4) = desc_len % 4294967296 ∧
    (∀ a, a ≠ (m.dev.queue qi).used_addr + 2 →
      a ≠ (m.dev.queue qi).used_addr + 3 →
      (a < (m.dev.queue qi).used_addr + 4 +
          Nat.land (read16 m.mem ((m.dev.queue qi).used_addr + 2))
            (u32pred (m.dev.queue qi).num) * 8 ∨
        (m.dev.queue qi).used_addr + 4 +
          Nat.land (read16 m.mem ((m.dev.queue qi).used_addr + 2))
            (u32pred (m.dev.queue qi).num) * 8 + 8 ≤ a) →
      readByte (virtio_consume_desc m qi di desc_len).mem a = readByte m.mem a) ∧
    (virtio_consume_desc m qi di desc_len).dev.int_status =
      Nat.lor m.dev.int_status 1 ∧
    (virtio_consume_desc m qi di desc_len).irq_level = 1 := by
  have hidx := read16_lt m.mem (w64 ((m.dev.queue qi).used_addr + 2))
  have hia : w64 ((m.dev.queue qi).used_addr + 2) =
      (m.dev.queue qi).used_addr + 2 := by
    unfold w64 W64
    exact Nat.mod_eq_of_lt (by omega)
  have hk : Nat.land (read16 m.mem ((m.dev.queue qi).used_addr + 2))
      (u32pred (m.dev.queue qi).num) < 65536 := by
    have h1 : Nat.land (read16 m.mem ((m.dev.queue qi).used_addr + 2))
        (u32pred (m.dev.queue qi).num) ≤
        read16 m.mem ((m.dev.queue qi).used_addr + 2) := Nat.and_le_left
    have h2 := read16_lt m.mem ((m.dev.queue qi).used_addr + 2)
    omega
  have hea : w64 ((m.dev.queue qi).used_addr + 4 +
      Nat.land (read16 m.mem ((m.dev.queue qi).used_addr + 2))
        (u32pred (m.dev.queue qi).num) * 8) =
      (m.dev.queue qi).used_addr + 4 +
      Nat.land (read16 m.mem ((m.dev.queue qi).used_addr + 2))
        (u32pred (m.dev.queue qi).num) * 8 := by
    unfold w64 W64
    exact Nat.mod_eq_of_lt (by omega)
  unfold virtio_consume_desc
  dsimp only
  rw [hia, hea]
  refine ⟨?_, ?_, ?_, ?_, rfl, rfl⟩
  · rw [read16_write32_ne _ _ _ _ (by omega)]
    rw [read16_write32_ne _ _ _ _ (by omega)]
    rw [read16_write16_same]
    rfl
  · rw [read32_write32_ne _ _ _ _ (by omega)]
    rw [read32_write32_same]
  · rw [read32_write32_same]
  · intro a ha2 ha3 haout
    rw [readByte_write32_ne _ _ _ _ (by omega)]
    rw [readByte_write32_ne _ _ _ _ (by omega)]
    rw [readByte_write16_ne _ _ _ _ (by omega)]

theorem block_recv_undecodable (m : BlockMachine) (qi di rs ws : Nat)
    (hdr : List Nat)
    (hpr : m.ext.req_in_progress = false)
    (hmc : memcpy_from_queue m.mem (m.dev.queue qi).desc_addr di 0 16 =
      (hdr, false)) :
    virtio_block_recv_request m qi di rs ws = (m, 0) := by
  unfold virtio_block_recv_request
  rw [if_neg (by rw [hpr]; exact Bool.false_ne_true)]
  dsimp only
  rw [hmc]

theorem block_recv_in (m : BlockMachine) (qi di rs ws : Nat) (hdr : List Nat)
    (hpr : m.ext.req_in_progress = false)
    (hmc : memcpy_from_queue m.mem (m.dev.queue qi).desc_addr di 0 16 =
      (hdr, true))
    (ht : read32l hdr 0 = VIRTIO_BLK_T_IN) :
    virtio_block_recv_request m qi di rs ws =
      (virtio_block_req_end
        { m with ext := { m.ext with req :=
          { type := VIRTIO_BLK_T_IN,
            buf := padTo ws (bf_read_async m.ext.bs (read64l hdr 8)
              ((ws - 1) / SECTOR_SIZE)).2,
            write_size := ws,
            queue_idx := qi,
            desc_idx := di } } }
        (bf_read_async m.ext.bs (read64l hdr 8) ((ws - 1) / SECTOR_SIZE)).1,
       0) := by
  unfold virtio_block_recv_request
  rw [if_neg (by rw [hpr]; exact Bool.false_ne_true)]
  dsimp only
  rw [hmc]
  dsimp only
  rw [ht]
  rw [if_pos rfl]
  rw [if_neg (by
    have h := bf_read_async_le_zero m.ext.bs (read64l hdr 8)
      ((ws - 1) / SECTOR_SIZE)
    omega)]

theorem block_recv_out (m : BlockMachine) (qi di rs ws : Nat) (hdr : List Nat)
    (hpr : m.ext.req_in_progress = false)
    (hmc : memcpy_from_queue m.mem (m.dev.queue qi).desc_addr di 0 16 =
      (hdr, true))
    (ht : read32l hdr 0 = VIRTIO_BLK_T_OUT) :
    virtio_block_recv_request m qi di rs ws =
      (virtio_block_req_end
        { m with ext := { m.ext with
            bs := (bf_write_async m.ext.bs (read64l hdr 8)
              (padTo (rs - 16)
                (memcpy_from_queue m.mem (m.dev.queue qi).desc_addr di 16
                  (rs - 16)).1)
              ((rs - 16) / SECTOR_SIZE)).1,
            req := { type := VIRTIO_BLK_T_OUT,
                     buf := m.ext.req.buf,
                     write_size := m.ext.req.write_size,
                     queue_idx := qi,
                     desc_idx := di } } }
        (bf_write_async m.ext.bs (read64l hdr 8)
          (padTo (rs - 16)
            (memcpy_from_queue m.mem (m.dev.queue qi).desc_addr di 16
              (rs - 16)).1)
          ((rs - 16) / SECTOR_SIZE)).2,
       0) := by
  unfold virtio_block_recv_request
  rw [if_neg (by rw [hpr]; exact Bool.false_ne_true)]
  dsimp only
  rw [hmc]
  dsimp only
  rw [ht]
  rw [if_neg (by decide), if_pos rfl]
  rw [if_neg (by
    have h := bf_write_async_le_zero m.ext.bs (read64l hdr 8)
      (padTo (rs - 16)
        (memcpy_from_queue m.mem (m.dev.queue qi).desc_addr di 16 (rs - 16)).1)
      ((rs - 16) / SECTOR_SIZE)
    omega)]

theorem req_end_in_consume (m : BlockMachine) (ret : Int)
    (ht : m.ext.req.type = VIRTIO_BLK_T_IN) :
    virtio_block_req_end m ret =
      virtio_consume_desc
        (setMem m (memcpy_to_queue m.mem
          (m.dev.queue m.ext.req.queue_idx).desc_addr m.ext.req.desc_idx 0
          (padTo m.ext.req.write_size
            ((m.ext.req.buf.take (m.ext.req.write_size - 1)) ++
              [if ret < 0 then VIRTIO_BLK_S_IOERR else VIRTIO_BLK_S_OK]))).1)
        m.ext.req.queue_idx m.ext.req.desc_idx m.ext.req.write_size := by
  unfold virtio_block_req_end
  dsimp only
  rw [if_pos ht]

theorem req_end_out_consume (m : BlockMachine) (ret : Int)
    (ht : m.ext.req.type = VIRTIO_BLK_T_OUT) :
    virtio_block_req_end m ret =
      virtio_consume_desc
        (setMem m (memcpy_to_queue m.mem
          (m.dev.queue m.ext.req.queue_idx).desc_addr m.ext.req.desc_idx 0
          [if ret < 0 then VIRTIO_BLK_S_IOERR else VIRTIO_BLK_S_OK]).1)
        m.ext.req.queue_idx m.ext.req.desc_idx 1 := by
  unfold virtio_block_req_end
  dsimp only
  rw [ht]
  rw [if_neg (by decide), if_pos rfl]

set_option maxHeartbeats 8000000 in
/-- C1 counterexample: an MMIO configuration sequence followed by a
QUEUE_NOTIFY write on a chain holding a FLUSH (type 4) block request
consumes one available-ring entry (last_avail_idx 0 to 1) yet produces no
used-ring entry (used idx stays 0), so the two counts differ. -/
theorem c1_counterexample :
    (sceneFlushAfter.dev.queue 0).last_avail_idx = 1 ∧
    read16 sceneFlushAfter.mem 12290 = 0 ∧
    ¬ (read16 sceneFlushAfter.mem 12290 =
        (sceneFlushAfter.dev.queue 0).last_avail_idx) := by
  exact ⟨by decide, by decide, by decide⟩

set_option maxHeartbeats 8000000 in
/-- C1 as amended: chains the device skips leave guest memory - hence
the used ring - untouched while recv returns 0: a block chain whose
decoded header has a type other than IN = 0 and OUT = 1 (such as
FLUSH = 4) only records the request type in the device struct, a block
chain whose header cannot be copied out of the descriptors returns the
machine unchanged, and a 9P request on a non-zero queue index returns
the machine unchanged; every chain the block device handles (IN or OUT
with a decodable header) ends in exactly one virtio_block_req_end call,
virtio_block_req_end on an IN or OUT request performs exactly one
virtio_consume_desc, and one virtio_consume_desc posts exactly one
used-ring entry: it bumps the 16-bit used index by exactly one, writes
the single {id, len} element at the current slot, leaves every other
byte of guest memory unchanged, sets int_status bit 0 and raises the
IRQ line; concretely, the mixed scene consumes two available entries
(FLUSH then OUT) and posts exactly one used-ring entry {id 1, len 1}. -/
theorem c1_amended_used_entries :
    (∀ (m : BlockMachine) (qi di rs ws : Nat) (hdr : List Nat),
      m.ext.req_in_progress = false →
      memcpy_from_queue m.mem (m.dev.queue qi).desc_addr di 0 16 = (hdr, true) →
      read32l hdr 0 ≠ VIRTIO_BLK_T_IN →
      read32l hdr 0 ≠ VIRTIO_BLK_T_OUT →
      virtio_block_recv_request m qi di rs ws =
        ({ m with ext := { m.ext with req := { m.ext.req with
            type := read32l hdr 0, queue_idx := qi, desc_idx := di } } }, 0)) ∧
    (∀ (m : BlockMachine) (qi di rs ws : Nat) (hdr : List Nat),
      m.ext.req_in_progress = false →
      memcpy_from_queue m.mem (m.dev.queue qi).desc_addr di 0 16 =
        (hdr, false) →
      virtio_block_recv_request m qi di rs ws = (m, 0)) ∧
    (∀ (F H : Type) (ops : FSOps F H) (m : P9Machine F H) (qi di rs ws : Nat),
      qi ≠ 0 → virtio_9p_recv_request ops m qi di rs ws = (m, 0)) ∧
    (∀ (m : BlockMachine) (qi di rs ws : Nat) (hdr : List Nat),
      m.ext.req_in_progress = false →
      memcpy_from_queue m.mem (m.dev.queue qi).desc_addr di 0 16 =
        (hdr, true) →
      read32l hdr 0 = VIRTIO_BLK_T_IN →
      virtio_block_recv_request m qi di rs ws =
        (virtio_block_req_end
          { m with ext := { m.ext with req :=
            { type := VIRTIO_BLK_T_IN,
              buf := padTo ws (bf_read_async m.ext.bs (read64l hdr 8)
                ((ws - 1) / SECTOR_SIZE)).2,
              write_size := ws,
              queue_idx := qi,
              desc_idx := di } } }
          (bf_read_async m.ext.bs (read64l hdr 8) ((ws - 1) / SECTOR_SIZE)).1,
         0)) ∧
    (∀ (m : BlockMachine) (qi di rs ws : Nat) (hdr : List Nat),
      m.ext.req_in_progress = false →
      memcpy_from_queue m.mem (m.dev.queue qi).desc_addr di 0 16 =
        (hdr, true) →
      read32l hdr 0 = VIRTIO_BLK_T_OUT →
      virtio_block_recv_request m qi di rs ws =
        (virtio_block_req_end
          { m with ext := { m.ext with
              bs := (bf_write_async m.ext.bs (read64l hdr 8)
                (padTo (rs - 16)
                  (memcpy_from_queue m.mem (m.dev.queue qi).desc_addr di 16
                    (rs - 16)).1)
                ((rs - 16) / SECTOR_SIZE)).1,
              req := { type := VIRTIO_BLK_T_OUT,
                       buf := m.ext.req.buf,
                       write_size := m.ext.req.write_size,
                       queue_idx := qi,
                       desc_idx := di } } }
          (bf_write_async m.ext.bs (read64l hdr 8)
            (padTo (rs - 16)
              (memcpy_from_queue m.mem (m.dev.queue qi).desc_addr di 16
                (rs - 16)).1)
            ((rs - 16) / SECTOR_SIZE)).2,
         0)) ∧
    (∀ (m : BlockMachine) (ret : Int),
      m.ext.req.type = VIRTIO_BLK_T_IN →
      virtio_block_req_end m ret =
        virtio_consume_desc
          (setMem m (memcpy_to_queue m.mem
            (m.dev.queue m.ext.req.queue_idx).desc_addr m.ext.req.desc_idx 0
            (padTo m.ext.req.write_size
              ((m.ext.req.buf.take (m.ext.req.write_size - 1)) ++
                [if ret < 0 then VIRTIO_BLK_S_IOERR else VIRTIO_BLK_S_OK]))).1)
          m.ext.req.queue_idx m.ext.req.desc_idx m.ext.req.write_size) ∧
    (∀ (m : BlockMachine) (ret : Int),
      m.ext.req.type = VIRTIO_BLK_T_OUT →
      virtio_block_req_end m ret =
        virtio_consume_desc
          (setMem m (memcpy_to_queue m.mem
            (m.dev.queue m.ext.req.queue_idx).desc_addr m.ext.req.desc_idx 0
            [if ret < 0 then VIRTIO_BLK_S_IOERR else VIRTIO_BLK_S_OK]).1)
          m.ext.req.queue_idx m.ext.req.desc_idx 1) ∧
    (∀ (E : Type) (m : Machine E) (qi di desc_len : Nat),
      (m.dev.queue qi).used_addr + 4 + 8 * 65536 < 18446744073709551616 →
      read16 (virtio_consume_desc m qi di desc_len).mem
          ((m.dev.queue qi).used_addr + 2) =
        u16 (read16 m.mem ((m.dev.queue qi).used_addr + 2) + 1) ∧
      read32 (virtio_consume_desc m qi di desc_len).mem
          ((m.dev.queue qi).used_addr + 4 +
            Nat.land (read16 m.mem ((m.dev.queue qi).used_addr + 2))
              (u32pred (m.dev.queue qi).num) * 8) = di % 4294967296 ∧
      read32 (virtio_consume_desc m qi di desc_len).mem
          ((m.dev.queue qi).used_addr + 4 +
            Nat.land (read16 m.mem ((m.dev.queue qi).used_addr + 2))
              (u32pred (m.dev.queue qi).num) * 8 + 4) =
        desc_len % 4294967296 ∧
      (∀ a, a ≠ (m.dev.queue qi).used_addr + 2 →
        a ≠ (m.dev.queue qi).used_addr + 3 →
        (a < (m.dev.queue qi).used_addr + 4 +
            Nat.land (read16 m.mem ((m.dev.queue qi).used_addr + 2))
              (u32pred (m.dev.queue qi).num) * 8 ∨
          (m.dev.queue qi).used_addr + 4 +
            Nat.land (read16 m.mem ((m.dev.queue qi).used_addr + 2))
              (u32pred (m.dev.queue qi).num) * 8 + 8 ≤ a) →
        readByte (virtio_consume_desc m qi di desc_len).mem a =
          readByte m.mem a) ∧
      (virtio_consume_desc m qi di desc_len).dev.int_status =
        Nat.lor m.dev.int_status 1 ∧
      (virtio_consume_desc m qi di desc_len).irq_level = 1) ∧
    ((sceneMixAfter.dev.queue 0).last_avail_idx = 2 ∧
     read16 sceneMixAfter.mem 12290 = 1 ∧
     read32 sceneMixAfter.mem 12292 = 1 ∧
     read32 sceneMixAfter.mem 12296 = 1) := by
  refine ⟨?_, ?_, ?_, ?_, ?_, ?_, ?_, ?_, ?_⟩
  · intro m qi di rs ws hdr hpr hmc h0 h1
    unfold virtio_block_recv_request
    rw [if_neg (by rw [hpr]; exact Bool.false_ne_true)]
    dsimp only
    rw [hmc]
    dsimp only
    rw [if_neg h0, if_neg h1]
  · intro m qi di rs ws hdr hpr hmc
    exact block_recv_undecodable m qi di rs ws hdr hpr hmc
  · intro F H ops m qi di rs ws hqi
    unfold virtio_9p_recv_request
    rw [if_pos hqi]
  · intro m qi di rs ws hdr hpr hmc ht
    exact block_recv_in m qi di rs ws hdr hpr hmc ht
  · intro m qi di rs ws hdr hpr hmc ht
    exact block_recv_out m qi di rs ws hdr hpr hmc ht
  · intro m ret ht
    exact req_end_in_consume m ret ht
  · intro m ret ht
    exact req_end_out_consume m ret ht
  · intro E m qi di desc_len hb
    exact consume_desc_posts_one_entry m qi di desc_len hb
  · exact ⟨by decide, by decide, by decide, by decide⟩

set_option maxHeartbeats 80000000 in
set_option maxRecDepth 8000 in
/-- C1 amended witness: the parts applied at concrete scenes - the
FLUSH skip, the undecodable chain on a zeroed machine, a handled IN
chain, a handled OUT chain, and the used-index bump of one consume. -/
theorem c1_amended_used_entries_witness :
    (virtio_block_recv_request sceneFlushCfg 0 0 16 0).2 = 0 ∧
    (virtio_block_recv_request sceneFlushCfg 0 0 16 0).1.mem =
      sceneFlushCfg.mem ∧
    virtio_block_recv_request (virtio_block_init bfRW zeroMem) 0 0 0 0 =
      (virtio_block_init bfRW zeroMem, 0) ∧
    (virtio_block_recv_request sceneInCfg 0 0 16 513).2 = 0 ∧
    (virtio_block_recv_request sceneOutCfg 0 0 528 1).2 = 0 ∧
    read16 (virtio_consume_desc sceneFlushCfg 0 0 1).mem
        ((sceneFlushCfg.dev.queue 0).used_addr + 2) =
      u16 (read16 sceneFlushCfg.mem
        ((sceneFlushCfg.dev.queue 0).used_addr + 2) + 1) := by
  have h1 := c1_amended_used_entries.1 sceneFlushCfg 0 0 16 0
    (le32b 4 ++ le32b 0 ++ le64b 0) (by decide) (by decide)
    (by decide) (by decide)
  have h2 := c1_amended_used_entries.2.1 (virtio_block_init bfRW zeroMem)
    0 0 0 0 [] (by decide) (by decide)
  have h4 := c1_amended_used_entries.2.2.2.1 sceneInCfg 0 0 16 513
    (le32b 0 ++ le32b 0 ++ le64b 0) (by decide) (by decide) (by decide)
  have h5 := c1_amended_used_entries.2.2.2.2.1 sceneOutCfg 0 0 528 1
    (le32b 1 ++ le32b 0 ++ le64b 0) (by decide) (by decide) (by decide)
  have h8 := (c1_amended_used_entries.2.2.2.2.2.2.2.1 BlockExt
    sceneFlushCfg 0 0 1 (by decide)).1
  exact ⟨by rw [h1], by rw [h1], h2, by rw [h4], by rw [h5], h8⟩

theorem read32l_le32b (v : Nat) (rest : List Nat) :
    read32l (le32b v ++ rest) 0 = v % 4294967296 := by
  simp [read32l, le32b, List.getD_cons_zero, List.getD_cons_succ]
  omega

/-- C2 counterexample: the concrete error reply written by
virtio_9p_send_error carries wire id byte 7, not 6 as claimed. -/
theorem c2_counterexample :
    readByte sceneP9ErrAfter.mem 16388 = 7 ∧
    ¬ readByte sceneP9ErrAfter.mem 16388 = 6 := by
  exact ⟨by decide, by decide⟩

/-- C2 as amended: every reply frame has its 4-byte little-endian size
field equal to the payload length plus the 7 header bytes, its tag field
equal to the request tag, its id byte equal to the request id plus 1 on
success, and its payload after the header; error replies go through
send_reply with literal id 6, so their wire id byte is 7 (= 6 + 1,
RLERROR), not 6. -/
theorem c2_amended_reply_frame :
    (∀ (id tag : Nat) (payload : List Nat),
      (p9_reply_frame id tag payload).length = payload.length + 7 ∧
      read32l (p9_reply_frame id tag payload) 0 =
        (payload.length + 7) % 4294967296 ∧
      (p9_reply_frame id tag payload).getD 4 0 = (id + 1) % 256 ∧
      read16l (p9_reply_frame id tag payload) 5 = tag % 65536 ∧
      List.drop 7 (p9_reply_frame id tag payload) = payload) ∧
    (∀ (E : Type) (m : Machine E) (qi di tag error : Nat),
      virtio_9p_send_error m qi di tag error =
        virtio_9p_send_reply m qi di 6 tag (le32b (u32neg error))) ∧
    (∀ (tag : Nat) (payload : List Nat),
      (p9_reply_frame 6 tag payload).getD 4 0 = 7) := by
  refine ⟨?_, ?_, ?_⟩
  · intro id tag payload
    refine ⟨?_, ?_, ?_, ?_, ?_⟩
    · simp [p9_reply_frame, le32b, le16b]
    · exact read32l_le32b _ _
    · simp [p9_reply_frame, le32b, le16b, List.getD_cons_zero,
        List.getD_cons_succ]
    · simp [p9_reply_frame, read16l, le32b, le16b, List.getD_cons_zero,
        List.getD_cons_succ]
      omega
    · simp [p9_reply_frame, le32b, le16b]
  · intro E m qi di tag error
    have hm : marshall 4 ['w'] [P9Val.w (u32neg error)] =
        some (le32b (u32neg error)) := by
      simp [marshall, marshallAux, le32b]
    unfold virtio_9p_send_error
    rw [hm]
  · intro tag payload
    simp [p9_reply_frame, le32b, le16b, List.getD_cons_zero,
      List.getD_cons_succ]

/-- Modelled from the spec: the total byte width of a format string made
of the fixed-width codec letters of section 4.4 (b = 1, h = 2, w = 4,
d = 8, Q = 13 bytes). -/
def p9FmtSize : List Char → Nat
  | [] => 0
  | c :: r =>
    (if c = 'b' then 1 else if c = 'h' then 2 else if c = 'w' then 4
     else if c = 'd' then 8 else if c = 'Q' then 13 else 0) + p9FmtSize r

/-- Modelled from the spec: the getattr width string claimed by the spec,
dQwww followed by sixteen d letters. -/
def spec_getattr_widths : List Char := "dQwwwdddddddddddddddd".toList

set_option maxRecDepth 8000 in
/-- C9 counterexample: the payload actually marshalled for getattr is
153 bytes (widths dQwww plus fifteen d), not the 161 bytes the claimed
width string dQwww plus sixteen d would produce. -/
theorem c9_counterexample :
    ((virtio_9p_getattr_payload 0 statZero).getD []).length = 153 ∧
    p9FmtSize spec_getattr_widths = 161 ∧
    ¬ ((virtio_9p_getattr_payload 0 statZero).getD []).length =
        p9FmtSize spec_getattr_widths := by
  exact ⟨by decide, by decide, by decide⟩

/-- C9 as amended: the getattr reply payload is marshalled with widths
dQwww followed by fifteen d letters, packing mask, qid, mode, uid, gid,
then nlink, rdev, size, blksize, blocks, the three timestamp pairs and
four zero u64 fields. -/
theorem c9_amended_getattr_payload (mask : Nat) (st : FSStat) :
    virtio_9p_getattr_payload mask st =
      some (le64b mask ++ qidBytes st.qid ++ le32b st.st_mode ++
        le32b st.st_uid ++ le32b st.st_gid ++ le64b st.st_nlink ++
        le64b st.st_rdev ++ le64b st.st_size ++ le64b st.st_blksize ++
        le64b st.st_blocks ++ le64b st.st_atime_sec ++
        le64b st.st_atime_nsec ++ le64b st.st_mtime_sec ++
        le64b st.st_mtime_nsec ++ le64b st.st_ctime_sec ++
        le64b st.st_ctime_nsec ++ le64b 0 ++ le64b 0 ++ le64b 0 ++
        le64b 0) := by
  rw [virtio_9p_getattr_payload]
  rw [show "dQwwwddddddddddddddd".toList =
    ['d', 'Q', 'w', 'w', 'w', 'd', 'd', 'd', 'd', 'd', 'd', 'd', 'd',
     'd', 'd', 'd', 'd', 'd', 'd', 'd'] from rfl]
  simp [marshall, marshallAux, le64b, le32b, le16b, qidBytes]

theorem p9_recv_queue_nonzero {F H : Type} (ops : FSOps F H)
    (m : P9Machine F H) (qi di rs ws : Nat) (hqi : qi ≠ 0) :
    virtio_9p_recv_request ops m qi di rs ws = (m, 0) := by
  unfold virtio_9p_recv_request
  rw [if_pos hqi]

/-- C10: the 9P recv invoked with a non-zero queue index returns 0 at
once with the machine unchanged - no chain read, no FID or msize change,
no reply, no used-ring entry - and the dispatch loop therefore advances
last_avail_idx past such an entry with no other state change. -/
theorem c10_nonzero_queue_skipped :
    (∀ (F H : Type) (ops : FSOps F H) (m : P9Machine F H) (qi di rs ws : Nat),
      qi ≠ 0 → virtio_9p_recv_request ops m qi di rs ws = (m, 0)) ∧
    (∀ (F H : Type) (ops : FSOps F H) (qi fuel : Nat) (m : P9Machine F H)
        (di rs ws : Nat),
      qi ≠ 0 →
      read16 m.mem (w64 ((m.dev.queue qi).avail_addr + 4 +
        (Nat.land (m.dev.queue qi).last_avail_idx
          (u32pred (m.dev.queue qi).num)) * 2)) = di →
      get_desc_rw_size m.mem (m.dev.queue qi).desc_addr di = some (rs, ws) →
      notify_loop (virtio_9p_recv_request ops) qi (fuel + 1) m =
        notify_loop (virtio_9p_recv_request ops) qi fuel
          (bump_last_avail m qi)) := by
  constructor
  · intro F H ops m qi di rs ws hqi
    exact p9_recv_queue_nonzero ops m qi di rs ws hqi
  · intro F H ops qi fuel m di rs ws hqi hdi hgd
    conv_lhs => unfold notify_loop
    dsimp only
    rw [hdi, hgd]
    dsimp only
    rw [p9_recv_queue_nonzero ops m qi di rs ws hqi]
    dsimp only
    rw [if_neg (by omega : ¬ (0 : Int) < 0)]

/-- C10 witness: the guard applied at queue index 1 on a fresh 9P
machine with the trivial back-end. -/
theorem c10_nonzero_queue_skipped_witness :
    virtio_9p_recv_request unitFS
      (virtio_9p_init (F := Unit) (H := Unit) () [] zeroMem) 1 0 0 0 =
      (virtio_9p_init (F := Unit) (H := Unit) () [] zeroMem, 0) :=
  c10_nonzero_queue_skipped.1 Unit Unit unitFS _ 1 0 0 0 (by omega)

end Virtio
